import Mathlib

/-!
# Verification of the config-based parameter counter and precision detector

This file gives a shallow embedding of `pipeline/sources/param_counter.py`:
config-based parameter counting and precision detection for known MoE
architectures.  Configurations are modelled as records holding a partial map
from string keys to integers (Python `config.get` on integer fields), plus
the string/bool/nested fields the module reads.  Python `ValueError` is
modelled with `Except String`; Python integers are `Int`; Python floor
division `//` is `Int.fdiv` with an explicit `ZeroDivisionError` guard
(Python evaluates the default argument of `config.get("head_dim", hidden // n_heads)`
eagerly, so a zero head count raises even when `head_dim` is present).

Definitions follow the source module top to bottom and keep its names.
Theorems about the frozen claims follow the definitions.
-/

/-- Error message of the required-field accessor `_require`. -/
def reqMsg (k : String) : String := "Required config field '" ++ k ++ "' is missing"

/-- Sequencing of fallible computations; Python exception propagation. -/
def andThen {α β : Type} (x : Except String α) (f : α → Except String β) :
    Except String β :=
  match x with
  | .error e => .error e
  | .ok a => f a

/-- Python floor division `a // b`: raises `ZeroDivisionError` on `b = 0`. -/
def pyFloorDiv (a b : Int) : Except String Int :=
  if b = 0 then .error "ZeroDivisionError: integer division or modulo by zero"
  else .ok (a.fdiv b)

/-- `AttentionType` enum of the source. -/
inductive AttentionType where
  | MLA
  | GQA
deriving DecidableEq

/-- `MoEFieldMapping`: maps architecture-specific config keys to a common
vocabulary.  `num_mlp_projections`: 3 = gated SwiGLU (gate+up+down),
2 = ungated (up+down). -/
structure MoEFieldMapping where
  expert_count_key : String
  shared_expert_key : String
  shared_expert_is_count : Bool
  expert_intermediate_key : String
  dense_layers_key : Option String
  mtp_key : Option String
  num_mlp_projections : Int := 3
deriving DecidableEq

/-- `ParamCountResult` dataclass of the source. -/
structure ParamCountResult where
  total_params : Int
  active_params : Int
  routed_expert_params : Int
  model_type : String
  num_layers : Int
  num_moe_layers : Int
  num_dense_layers : Int
  num_mamba_layers : Int := 0
  num_attention_layers : Int := 0
deriving DecidableEq

/-- One `weights` descriptor inside a compressed-tensors config group. -/
structure WeightsSpec where
  num_bits : Option Int := none
  w_type : Option String := none

/-- One value of `quantization_config["config_groups"]`. -/
structure QuantGroup where
  weights : WeightsSpec := {}

/-- The `quantization_config` block of a HuggingFace config. -/
structure QuantConfig where
  quant_method : String := ""
  config_groups : List QuantGroup := []
  ignore : List String := []

/-- `PrecisionInfo` dataclass of the source (`bytes_per_param` is a Python
float; the values that occur are exact, so `ℚ` models it). -/
structure PrecisionInfo where
  bytes_per_param : ℚ
  dtype_str : String
  is_mixed : Bool := false

/-- A (possibly nested) model configuration: the fields `param_counter.py`
reads.  `ints` is the partial map of integer-valued entries (`None`/absent
both map to `none`); `tie_word_embeddings` models `config.get(k, False)`. -/
structure Config where
  model_type : String := ""
  ints : String → Option Int
  tie_word_embeddings : Bool := false
  hybrid_override_pattern : Option (List Char) := none
  torch_dtype : Option String := none
  dtype : Option String := none
  quantization_config : Option QuantConfig := none

/-- A raw (top-level) configuration: a `Config` plus the optional
`text_config` sub-mapping of multimodal wrappers. -/
structure RawConfig where
  base : Config
  text_config : Option Config := none

/-- `MULTIMODAL_MODEL_TYPES = {"kimi_k25"}` membership test. -/
def isMultimodalModelType (mt : String) : Bool := mt = "kimi_k25"

/-- `resolve_text_config`: unwrap multimodal configs to the text backbone. -/
def resolve_text_config (raw : RawConfig) : Except String Config :=
  if isMultimodalModelType raw.base.model_type then
    match raw.text_config with
    | some t => .ok t
    | none =>
        .error ("model_type='" ++ raw.base.model_type ++
          "' requires 'text_config' dict, but it is missing")
  else .ok raw.base

/-- The field mapping shared by `deepseek_v32`, `kimi_k2`, `glm4_moe` and
`glm_moe_dsa` registry entries (the source repeats this literal). -/
def deepseek_mapping : MoEFieldMapping where
  expert_count_key := "n_routed_experts"
  shared_expert_key := "n_shared_experts"
  shared_expert_is_count := true
  expert_intermediate_key := "moe_intermediate_size"
  dense_layers_key := some "first_k_dense_replace"
  mtp_key := some "num_nextn_predict_layers"

/-- The field mapping of the `qwen3_moe` and `qwen3_next` registry entries. -/
def qwen3_mapping : MoEFieldMapping where
  expert_count_key := "num_experts"
  shared_expert_key := "shared_expert_intermediate_size"
  shared_expert_is_count := false
  expert_intermediate_key := "moe_intermediate_size"
  dense_layers_key := none
  mtp_key := none

/-- The field mapping of the `minimax_m2` registry entry. -/
def minimax_mapping : MoEFieldMapping where
  expert_count_key := "num_local_experts"
  shared_expert_key := "shared_intermediate_size"
  shared_expert_is_count := false
  expert_intermediate_key := "intermediate_size"
  dense_layers_key := none
  mtp_key := some "num_mtp_modules"

/-- The field mapping of the `nemotron_h` registry entry (the only ungated
one: `num_mlp_projections = 2`). -/
def nemotron_mapping : MoEFieldMapping where
  expert_count_key := "n_routed_experts"
  shared_expert_key := "moe_shared_expert_intermediate_size"
  shared_expert_is_count := false
  expert_intermediate_key := "moe_intermediate_size"
  dense_layers_key := none
  mtp_key := none
  num_mlp_projections := 2

/-- `KNOWN_ARCHITECTURES`: the architecture registry, keyed by `model_type`. -/
def KNOWN_ARCHITECTURES (mt : String) : Option (AttentionType × MoEFieldMapping) :=
  if mt = "deepseek_v32" then some (.MLA, deepseek_mapping)
  else if mt = "kimi_k2" then some (.MLA, deepseek_mapping)
  else if mt = "glm4_moe" then some (.GQA, deepseek_mapping)
  else if mt = "qwen3_moe" then some (.GQA, qwen3_mapping)
  else if mt = "minimax_m2" then some (.GQA, minimax_mapping)
  else if mt = "nemotron_h" then some (.GQA, nemotron_mapping)
  else if mt = "glm_moe_dsa" then some (.MLA, deepseek_mapping)
  else if mt = "qwen3_next" then some (.GQA, qwen3_mapping)
  else none

/-- `_require`: extract a required integer config field or fail naming it. -/
def require (c : Config) (k : String) : Except String Int :=
  match c.ints k with
  | some v => .ok v
  | none => .error (reqMsg k)

/-- `_mla_attention_params`: MLA params per layer. -/
def mla_attention_params (c : Config) : Except String Int :=
  andThen (require c "hidden_size") fun hidden =>
  andThen (require c "num_attention_heads") fun n_heads =>
  andThen (require c "kv_lora_rank") fun kv_lora_rank =>
  andThen (require c "q_lora_rank") fun q_lora_rank =>
  andThen (require c "qk_nope_head_dim") fun qk_nope =>
  andThen (require c "qk_rope_head_dim") fun qk_rope =>
  andThen (require c "v_head_dim") fun v_head =>
  let q_a_proj := hidden * q_lora_rank
  let q_a_norm := q_lora_rank
  let q_b_proj := q_lora_rank * n_heads * (qk_nope + qk_rope)
  let kv_a_proj := hidden * (kv_lora_rank + qk_rope)
  let kv_a_norm := kv_lora_rank
  let kv_b_proj := kv_lora_rank * n_heads * (qk_nope + v_head)
  let o_proj := n_heads * v_head * hidden
  .ok (q_a_proj + q_a_norm + q_b_proj + kv_a_proj + kv_a_norm + kv_b_proj + o_proj)

/-- The effective GQA head dimension: `config.get("head_dim", hidden // n_heads)`
once the default has been computed. -/
def gqa_head_dim (c : Config) (hidden n_heads_div : Int) : Int :=
  (c.ints "head_dim").getD (hidden.fdiv n_heads_div)

/-- `_gqa_attention_params`: GQA params per layer. -/
def gqa_attention_params (c : Config) : Except String Int :=
  andThen (require c "hidden_size") fun hidden =>
  andThen (require c "num_attention_heads") fun n_heads =>
  andThen (require c "num_key_value_heads") fun n_kv_heads =>
  andThen (pyFloorDiv hidden n_heads) fun _ =>
  let head_dim := gqa_head_dim c hidden n_heads
  let q_proj := hidden * (n_heads * head_dim)
  let k_proj := hidden * (n_kv_heads * head_dim)
  let v_proj := hidden * (n_kv_heads * head_dim)
  let o_proj := (n_heads * head_dim) * hidden
  .ok (q_proj + k_proj + v_proj + o_proj)

/-- The `k_proj + v_proj` terms of `_gqa_attention_params` (the key/value
projection cost; key/value projections scale with the KV head count). -/
def gqa_kv_proj_params (c : Config) : Except String Int :=
  andThen (require c "hidden_size") fun hidden =>
  andThen (require c "num_attention_heads") fun n_heads =>
  andThen (require c "num_key_value_heads") fun n_kv_heads =>
  andThen (pyFloorDiv hidden n_heads) fun _ =>
  let head_dim := gqa_head_dim c hidden n_heads
  let k_proj := hidden * (n_kv_heads * head_dim)
  let v_proj := hidden * (n_kv_heads * head_dim)
  .ok (k_proj + v_proj)

/-- `_dsa_indexer_params`: DSA indexer params per layer (0 when the DSA
fields are absent). -/
def dsa_indexer_params (c : Config) : Except String Int :=
  match c.ints "index_n_heads", c.ints "index_head_dim" with
  | some index_n_heads, some index_head_dim =>
      andThen (require c "hidden_size") fun hidden =>
      let wq_b := hidden * (index_n_heads * index_head_dim)
      let wk := hidden * (index_n_heads * index_head_dim)
      let weights_proj := (index_n_heads * index_head_dim) * index_n_heads
      let k_norm := 2 * index_head_dim
      .ok (wq_b + wk + weights_proj + k_norm)
  | _, _ => .ok 0

/-- `_qwen3_next_linear_attn_params`: Mamba2-style linear attention params
per layer. -/
def qwen3_next_linear_attn_params (c : Config) : Except String Int :=
  andThen (require c "hidden_size") fun hidden =>
  andThen (require c "num_attention_heads") fun n_attn_heads =>
  andThen (pyFloorDiv hidden n_attn_heads) fun _ =>
  let head_dim := gqa_head_dim c hidden n_attn_heads
  andThen (require c "linear_num_key_heads") fun linear_n_key_heads =>
  andThen (require c "linear_key_head_dim") fun linear_key_head_dim =>
  andThen (require c "linear_num_value_heads") fun linear_n_value_heads =>
  andThen (require c "linear_value_head_dim") fun linear_value_head_dim =>
  andThen (require c "linear_conv_kernel_dim") fun conv_kernel =>
  let q_dim := n_attn_heads * head_dim
  let k_dim := linear_n_key_heads * linear_key_head_dim
  let v_dim := linear_n_value_heads * linear_value_head_dim
  let z_dim := n_attn_heads * head_dim
  let in_proj_qkvz := hidden * (q_dim + k_dim + v_dim + z_dim)
  let in_proj_ba := hidden * (2 * linear_n_key_heads)
  let d_conv := v_dim + k_dim
  let conv1d := d_conv * conv_kernel + d_conv
  let out_proj := v_dim * hidden
  let norm := v_dim
  let a_log := n_attn_heads
  let dt_bias := n_attn_heads
  .ok (in_proj_qkvz + in_proj_ba + conv1d + out_proj + norm + a_log + dt_bias)

/-- `_dense_mlp_params`: dense MLP params (`num_projections × hidden × intermediate`). -/
def dense_mlp_params (hidden intermediate num_projections : Int) : Int :=
  num_projections * hidden * intermediate

/-- `_moe_layer_params`: MoE FFN params for one layer.  With
`num_active_experts = some n` only `n` routed experts are counted. -/
def moe_layer_params (c : Config) (mp : MoEFieldMapping)
    (num_active_experts : Option Int) : Except String Int :=
  andThen (require c "hidden_size") fun hidden =>
  andThen (require c mp.expert_count_key) fun n_experts =>
  andThen (require c mp.expert_intermediate_key) fun expert_intermediate =>
  let n_proj := mp.num_mlp_projections
  let active := num_active_experts.getD n_experts
  let routed := active * dense_mlp_params hidden expert_intermediate n_proj
  let router := hidden * n_experts
  andThen (require c mp.shared_expert_key) fun shared_val =>
  let shared :=
    if mp.shared_expert_is_count then
      shared_val * dense_mlp_params hidden expert_intermediate n_proj
    else if shared_val > 0 then dense_mlp_params hidden shared_val n_proj else 0
  .ok (routed + router + shared)

/-- `_mamba2_layer_params`: Mamba2 SSM params per layer. -/
def mamba2_layer_params (c : Config) : Except String Int :=
  andThen (require c "hidden_size") fun hidden =>
  andThen (require c "mamba_num_heads") fun num_heads =>
  andThen (require c "mamba_head_dim") fun head_dim =>
  andThen (require c "ssm_state_size") fun ssm_state =>
  let n_group := (c.ints "n_group").getD 1
  andThen (require c "conv_kernel") fun conv_kernel =>
  let d_inner := num_heads * head_dim
  let in_proj := hidden * (2 * d_inner + 2 * n_group * ssm_state + num_heads)
  let conv1d := d_inner * conv_kernel + d_inner
  let dt_bias := num_heads
  let a_log := num_heads
  let d_param := num_heads
  let inner_norm := d_inner
  let out_proj := d_inner * hidden
  .ok (in_proj + conv1d + dt_bias + a_log + d_param + inner_norm + out_proj)

/-- Attention function selection (`attn_fn` in the source). -/
def attention_params (atype : AttentionType) (c : Config) : Except String Int :=
  match atype with
  | .MLA => mla_attention_params c
  | .GQA => gqa_attention_params c

/-- Accumulator of `_count_hybrid_params`' per-layer loop. -/
structure HybridAcc where
  num_mamba : Int := 0
  num_attn : Int := 0
  num_moe : Int := 0
  num_dense_mlp : Int := 0
  total_layer_params : Int := 0
  active_layer_params : Int := 0
  routed_expert_params : Int := 0
deriving DecidableEq

/-- One iteration of the pattern loop in `_count_hybrid_params`: each block
is one RMSNorm plus a mixer chosen by the pattern character (`M` = Mamba2,
`*` = attention, `-` = dense MLP, anything else = MoE). -/
def hybrid_step (c : Config) (atype : AttentionType) (mp : MoEFieldMapping)
    (hidden n_active_experts : Int) (acc : HybridAcc) (ch : Char) :
    Except String HybridAcc :=
  let norm_params := hidden
  if ch = 'M' then
    andThen (mamba2_layer_params c) fun mixer_params =>
    .ok { acc with
      total_layer_params := acc.total_layer_params + norm_params + mixer_params
      active_layer_params := acc.active_layer_params + norm_params + mixer_params
      num_mamba := acc.num_mamba + 1 }
  else if ch = '*' then
    andThen (attention_params atype c) fun mixer_params =>
    .ok { acc with
      total_layer_params := acc.total_layer_params + norm_params + mixer_params
      active_layer_params := acc.active_layer_params + norm_params + mixer_params
      num_attn := acc.num_attn + 1 }
  else if ch = '-' then
    andThen (require c "intermediate_size") fun intermediate =>
    let mixer_params := dense_mlp_params hidden intermediate mp.num_mlp_projections
    .ok { acc with
      total_layer_params := acc.total_layer_params + norm_params + mixer_params
      active_layer_params := acc.active_layer_params + norm_params + mixer_params
      num_dense_mlp := acc.num_dense_mlp + 1 }
  else
    andThen (moe_layer_params c mp none) fun total_moe =>
    andThen (moe_layer_params c mp (some n_active_experts)) fun active_moe =>
    andThen (require c mp.expert_count_key) fun n_experts =>
    andThen (require c mp.expert_intermediate_key) fun expert_intermediate =>
    .ok { acc with
      total_layer_params := acc.total_layer_params + norm_params + total_moe
      active_layer_params := acc.active_layer_params + norm_params + active_moe
      routed_expert_params := acc.routed_expert_params +
        n_experts * dense_mlp_params hidden expert_intermediate mp.num_mlp_projections
      num_moe := acc.num_moe + 1 }

/-- The `for char in pattern` loop of `_count_hybrid_params`. -/
def hybrid_loop (c : Config) (atype : AttentionType) (mp : MoEFieldMapping)
    (hidden n_active_experts : Int) :
    HybridAcc → List Char → Except String HybridAcc
  | acc, [] => .ok acc
  | acc, ch :: rest =>
      andThen (hybrid_step c atype mp hidden n_active_experts acc ch) fun acc' =>
      hybrid_loop c atype mp hidden n_active_experts acc' rest

/-- `_count_hybrid_params`: params of hybrid (Mamba2 + attention + MoE)
architectures driven by `hybrid_override_pattern`. -/
def count_hybrid_params (c : Config) (atype : AttentionType)
    (mp : MoEFieldMapping) : Except String ParamCountResult :=
  andThen (require c "hidden_size") fun hidden =>
  andThen (require c "vocab_size") fun vocab =>
  andThen (require c "num_hidden_layers") fun n_layers =>
  andThen (require c "num_experts_per_tok") fun n_active_experts =>
  let pattern := c.hybrid_override_pattern.getD []
  if (pattern.length : Int) ≠ n_layers then
    .error ("hybrid_override_pattern length (" ++ toString pattern.length ++
      ") != num_hidden_layers (" ++ toString n_layers ++ ")")
  else
    andThen (hybrid_loop c atype mp hidden n_active_experts {} pattern) fun acc =>
    let embed := vocab * hidden
    let lm_head := if c.tie_word_embeddings then 0 else vocab * hidden
    let final_norm := hidden
    .ok {
      total_params := embed + lm_head + acc.total_layer_params + final_norm
      active_params := embed + lm_head + acc.active_layer_params + final_norm
      routed_expert_params := acc.routed_expert_params
      model_type := c.model_type
      num_layers := n_layers
      num_moe_layers := acc.num_moe
      num_dense_layers := acc.num_dense_mlp
      num_mamba_layers := acc.num_mamba
      num_attention_layers := acc.num_attn }

/-- The layer choice of `_count_interval_hybrid_params`: layer `i`
(0-indexed) uses full GQA attention when `(i + 1) % interval == 0`. -/
def usesFullAttention (interval : Int) (i : Nat) : Bool :=
  ((i : Int) + 1) % interval = 0

/-- Accumulator of `_count_interval_hybrid_params`' layer loop. -/
structure IntervalAcc where
  num_full_attn : Int := 0
  num_linear_attn : Int := 0
  total_layer_params : Int := 0
  active_layer_params : Int := 0
  routed_expert_params : Int := 0
deriving DecidableEq

/-- The `for i in range(n_layers)` loop of `_count_interval_hybrid_params`,
as a recursion on the number of layers processed (layer costs are
precomputed, so the loop body is pure). -/
def interval_accum (interval norms gqa_per_layer linear_per_layer
    total_moe_per_layer active_moe_per_layer routed_per_moe_layer : Int) :
    Nat → IntervalAcc
  | 0 => {}
  | n + 1 =>
      let acc := interval_accum interval norms gqa_per_layer linear_per_layer
        total_moe_per_layer active_moe_per_layer routed_per_moe_layer n
      if usesFullAttention interval n then
        { acc with
          num_full_attn := acc.num_full_attn + 1
          total_layer_params := acc.total_layer_params + norms + gqa_per_layer +
            total_moe_per_layer
          active_layer_params := acc.active_layer_params + norms + gqa_per_layer +
            active_moe_per_layer
          routed_expert_params := acc.routed_expert_params + routed_per_moe_layer }
      else
        { acc with
          num_linear_attn := acc.num_linear_attn + 1
          total_layer_params := acc.total_layer_params + norms + linear_per_layer +
            total_moe_per_layer
          active_layer_params := acc.active_layer_params + norms + linear_per_layer +
            active_moe_per_layer
          routed_expert_params := acc.routed_expert_params + routed_per_moe_layer }

/-- `_count_interval_hybrid_params`: interval-based hybrid architectures
(linear attention + full GQA attention every `full_attention_interval`-th
layer; every layer has a MoE FFN). -/
def count_interval_hybrid_params (c : Config) (_atype : AttentionType)
    (mp : MoEFieldMapping) : Except String ParamCountResult :=
  andThen (require c "hidden_size") fun hidden =>
  andThen (require c "vocab_size") fun vocab =>
  andThen (require c "num_hidden_layers") fun n_layers =>
  andThen (require c "num_experts_per_tok") fun n_active_experts =>
  andThen (require c "full_attention_interval") fun interval =>
  andThen (gqa_attention_params c) fun gqa_per_layer =>
  andThen (qwen3_next_linear_attn_params c) fun linear_per_layer =>
  andThen (moe_layer_params c mp none) fun total_moe_per_layer =>
  andThen (moe_layer_params c mp (some n_active_experts)) fun active_moe_per_layer =>
  andThen (require c mp.expert_count_key) fun n_experts =>
  andThen (require c mp.expert_intermediate_key) fun expert_intermediate =>
  let routed_per_moe_layer :=
    n_experts * dense_mlp_params hidden expert_intermediate mp.num_mlp_projections
  let norms := 2 * hidden
  let acc := interval_accum interval norms gqa_per_layer linear_per_layer
    total_moe_per_layer active_moe_per_layer routed_per_moe_layer n_layers.toNat
  let embed := vocab * hidden
  let lm_head := if c.tie_word_embeddings then 0 else vocab * hidden
  let final_norm := hidden
  .ok {
    total_params := embed + lm_head + acc.total_layer_params + final_norm
    active_params := embed + lm_head + acc.active_layer_params + final_norm
    routed_expert_params := acc.routed_expert_params
    model_type := c.model_type
    num_layers := n_layers
    num_moe_layers := n_layers
    num_dense_layers := 0
    num_mamba_layers := acc.num_linear_attn
    num_attention_layers := acc.num_full_attn }

/-- The `dense_layers` read of the uniform path:
`_require(config, mapping.dense_layers_key) if mapping.dense_layers_key else 0`. -/
def dense_layers_req (c : Config) (mp : MoEFieldMapping) : Except String Int :=
  match mp.dense_layers_key with
  | some k => require c k
  | none => .ok 0

/-- The MTP module count of the uniform path:
`config.get(mapping.mtp_key, 0) or 0` (0 when the key is unmapped, absent or
falsy). -/
def mtp_count_of (c : Config) (mp : MoEFieldMapping) : Int :=
  match mp.mtp_key with
  | some k => (c.ints k).getD 0
  | none => 0

/-- The uniform (non-hybrid) tail of `count_params_from_config`: dense/MoE
layer split with a uniform attention mixer, optional MTP modules. -/
def count_uniform_params (c : Config) (atype : AttentionType)
    (mp : MoEFieldMapping) : Except String ParamCountResult :=
  andThen (require c "hidden_size") fun hidden =>
  andThen (require c "vocab_size") fun vocab =>
  andThen (require c "num_hidden_layers") fun n_layers =>
  andThen (require c "intermediate_size") fun intermediate =>
  andThen (require c "num_experts_per_tok") fun n_active_experts =>
  andThen (dense_layers_req c mp) fun dense_layers =>
  let moe_layers := n_layers - dense_layers
  let mtp_count := mtp_count_of c mp
  andThen (attention_params atype c) fun attn_per_layer =>
  let norms_per_layer := 2 * hidden
  let embed := vocab * hidden
  let lm_head := if c.tie_word_embeddings then 0 else vocab * hidden
  let final_norm := hidden
  andThen (require c mp.expert_count_key) fun n_experts =>
  andThen (require c mp.expert_intermediate_key) fun expert_intermediate =>
  let routed_expert_params :=
    moe_layers * n_experts * dense_mlp_params hidden expert_intermediate 3
  andThen (dsa_indexer_params c) fun dsa_per_layer =>
  let dense_block := attn_per_layer + dense_mlp_params hidden intermediate 3 +
    norms_per_layer + dsa_per_layer
  andThen (moe_layer_params c mp none) fun moe_full =>
  let moe_block := attn_per_layer + moe_full + norms_per_layer + dsa_per_layer
  let total0 := embed + lm_head + dense_layers * dense_block +
    moe_layers * moe_block + final_norm
  let mtp_per_module := 2 * hidden * hidden + 4 * hidden
  let total := if mtp_count > 0 then total0 + mtp_count * mtp_per_module else total0
  andThen (moe_layer_params c mp (some n_active_experts)) fun moe_active =>
  let active_moe_block := attn_per_layer + moe_active + norms_per_layer + dsa_per_layer
  let active0 := embed + lm_head + dense_layers * dense_block +
    moe_layers * active_moe_block + final_norm
  let active := if mtp_count > 0 then active0 + mtp_count * mtp_per_module else active0
  .ok {
    total_params := total
    active_params := active
    routed_expert_params := routed_expert_params
    model_type := c.model_type
    num_layers := n_layers
    num_moe_layers := moe_layers
    num_dense_layers := dense_layers }

/-- The body of `count_params_from_config` after `resolve_text_config`:
registry lookup then topology dispatch (pattern-hybrid, interval-hybrid,
uniform — in this priority order). -/
def count_params_core (c : Config) : Except String ParamCountResult :=
  match KNOWN_ARCHITECTURES c.model_type with
  | none => .error ("Unknown model_type='" ++ c.model_type ++ "'")
  | some (atype, mp) =>
      if c.hybrid_override_pattern.isSome then count_hybrid_params c atype mp
      else if (c.ints "full_attention_interval").getD 0 > 1 then
        count_interval_hybrid_params c atype mp
      else count_uniform_params c atype mp

/-- `count_params_from_config`: count total and active parameters from a
HuggingFace config. -/
def count_params_from_config (raw : RawConfig) : Except String ParamCountResult :=
  andThen (resolve_text_config raw) count_params_core

/-- `config.get("torch_dtype") or config.get("dtype")` (Python `or`:
the second operand when the first is `None` or the empty string). -/
def effective_dtype (c : Config) : Option String :=
  match c.torch_dtype with
  | some s => if s = "" then c.dtype else some s
  | none => c.dtype

/-- Render an optional dtype string the way a Python f-string renders it
(`None` when absent). -/
def dtypeRepr (d : Option String) : String :=
  match d with
  | some s => s
  | none => "None"

/-- The `config_groups` scan of `detect_precision` for the
`compressed-tensors` method: the first group exposing a truthy bit-width
and type label wins; no parseable group is a hard error. -/
def scan_config_groups (qc : QuantConfig) : List QuantGroup → Except String PrecisionInfo
  | [] => .error "Could not parse compressed-tensors config_groups"
  | g :: rest =>
      match g.weights.num_bits, g.weights.w_type with
      | some num_bits, some w_type =>
          if num_bits ≠ 0 ∧ w_type ≠ "" then
            .ok {
              bytes_per_param := (num_bits : ℚ) / 8
              dtype_str := w_type.toUpper ++ toString num_bits
              is_mixed := !qc.ignore.isEmpty }
          else scan_config_groups qc rest
      | _, _ => scan_config_groups qc rest

/-- `detect_precision`: detect storage precision from a config. -/
def detect_precision (raw : RawConfig) : Except String PrecisionInfo :=
  andThen (resolve_text_config raw) fun c =>
  match c.quantization_config with
  | none =>
      match effective_dtype c with
      | some "bfloat16" => .ok { bytes_per_param := 2, dtype_str := "BF16" }
      | some "float16" => .ok { bytes_per_param := 2, dtype_str := "FP16" }
      | some "float32" => .ok { bytes_per_param := 4, dtype_str := "FP32" }
      | d => .error ("Unknown torch_dtype='" ++ dtypeRepr d ++ "'")
  | some qc =>
      if qc.quant_method = "fp8" then
        .ok { bytes_per_param := 1, dtype_str := "FP8" }
      else if qc.quant_method = "compressed-tensors" then
        scan_config_groups qc qc.config_groups
      else .error ("Unknown quant_method='" ++ qc.quant_method ++ "'")

/-- The value `_dsa_indexer_params` computes once `hidden_size` resolves. -/
def dsa_val (c : Config) (hid : Int) : Int :=
  match c.ints "index_n_heads", c.ints "index_head_dim" with
  | some index_n_heads, some index_head_dim =>
      hid * (index_n_heads * index_head_dim) + hid * (index_n_heads * index_head_dim) +
        (index_n_heads * index_head_dim) * index_n_heads + 2 * index_head_dim
  | _, _ => 0

/-- The value `_mla_attention_params` computes from its seven fields. -/
def mla_val (hid n_heads kv_lora_rank q_lora_rank qk_nope qk_rope v_head : Int) : Int :=
  hid * q_lora_rank + q_lora_rank + q_lora_rank * n_heads * (qk_nope + qk_rope) +
    hid * (kv_lora_rank + qk_rope) + kv_lora_rank +
    kv_lora_rank * n_heads * (qk_nope + v_head) + n_heads * v_head * hid

/-- The value `_gqa_attention_params` computes from its fields. -/
def gqa_val (c : Config) (hid n_heads n_kv_heads : Int) : Int :=
  hid * (n_heads * gqa_head_dim c hid n_heads) +
    hid * (n_kv_heads * gqa_head_dim c hid n_heads) +
    hid * (n_kv_heads * gqa_head_dim c hid n_heads) +
    (n_heads * gqa_head_dim c hid n_heads) * hid

/-- The value `_qwen3_next_linear_attn_params` computes from its fields. -/
def linear_attn_val (c : Config) (hid n_attn_heads lk lkd lv lvd ck : Int) : Int :=
  let head_dim := gqa_head_dim c hid n_attn_heads
  let q_dim := n_attn_heads * head_dim
  let k_dim := lk * lkd
  let v_dim := lv * lvd
  hid * (q_dim + k_dim + v_dim + q_dim) + hid * (2 * lk) +
    ((v_dim + k_dim) * ck + (v_dim + k_dim)) + v_dim * hid + v_dim +
    n_attn_heads + n_attn_heads

/-- The value `_mamba2_layer_params` computes from its fields
(`n_group` defaults to 1). -/
def mamba2_val (c : Config) (hid num_heads head_dim ssm_state conv_kernel : Int) : Int :=
  let n_group := (c.ints "n_group").getD 1
  let d_inner := num_heads * head_dim
  hid * (2 * d_inner + 2 * n_group * ssm_state + num_heads) +
    (d_inner * conv_kernel + d_inner) + num_heads + num_heads + num_heads +
    d_inner + d_inner * hid

/-- The shared-expert term of `_moe_layer_params`. -/
def moe_shared_val (mp : MoEFieldMapping) (hid ei sh : Int) : Int :=
  if mp.shared_expert_is_count then
    sh * dense_mlp_params hid ei mp.num_mlp_projections
  else if sh > 0 then dense_mlp_params hid sh mp.num_mlp_projections else 0

/-- The value `_moe_layer_params` computes from its fields. -/
def moe_layer_val (mp : MoEFieldMapping) (hid ne ei sh : Int) (o : Option Int) : Int :=
  (o.getD ne) * dense_mlp_params hid ei mp.num_mlp_projections + hid * ne +
    moe_shared_val mp hid ei sh

/-- The output-head cost (`0 if config.get("tie_word_embeddings", False)
else vocab * hidden`). -/
def lm_head_val (c : Config) (vocab hid : Int) : Int :=
  if c.tie_word_embeddings then 0 else vocab * hid

/-- The `ParamCountResult` the uniform path assembles from resolved values. -/
def uniform_result (c : Config) (mp : MoEFieldMapping)
    (hid vocab n_layers intermediate n_act dl ap ne ei sh : Int) : ParamCountResult :=
  let moe_layers := n_layers - dl
  let mtp_count := mtp_count_of c mp
  let ds := dsa_val c hid
  let norms := 2 * hid
  let embed := vocab * hid
  let lmh := lm_head_val c vocab hid
  let dense_block := ap + dense_mlp_params hid intermediate 3 + norms + ds
  let moe_block := ap + moe_layer_val mp hid ne ei sh none + norms + ds
  let active_moe_block := ap + moe_layer_val mp hid ne ei sh (some n_act) + norms + ds
  let mtp_per_module := 2 * hid * hid + 4 * hid
  let total0 := embed + lmh + dl * dense_block + moe_layers * moe_block + hid
  let active0 := embed + lmh + dl * dense_block + moe_layers * active_moe_block + hid
  { total_params := if mtp_count > 0 then total0 + mtp_count * mtp_per_module else total0
    active_params := if mtp_count > 0 then active0 + mtp_count * mtp_per_module else active0
    routed_expert_params := moe_layers * ne * dense_mlp_params hid ei 3
    model_type := c.model_type
    num_layers := n_layers
    num_moe_layers := moe_layers
    num_dense_layers := dl }

/-- The `ParamCountResult` the pattern-hybrid path assembles from the loop
accumulator. -/
def hybrid_result (c : Config) (hid vocab n_layers : Int) (acc : HybridAcc) :
    ParamCountResult :=
  { total_params := vocab * hid + lm_head_val c vocab hid + acc.total_layer_params + hid
    active_params := vocab * hid + lm_head_val c vocab hid + acc.active_layer_params + hid
    routed_expert_params := acc.routed_expert_params
    model_type := c.model_type
    num_layers := n_layers
    num_moe_layers := acc.num_moe
    num_dense_layers := acc.num_dense_mlp
    num_mamba_layers := acc.num_mamba
    num_attention_layers := acc.num_attn }

/-- The `ParamCountResult` the interval-hybrid path assembles from the loop
accumulator. -/
def interval_result (c : Config) (hid vocab n_layers : Int) (acc : IntervalAcc) :
    ParamCountResult :=
  { total_params := vocab * hid + lm_head_val c vocab hid + acc.total_layer_params + hid
    active_params := vocab * hid + lm_head_val c vocab hid + acc.active_layer_params + hid
    routed_expert_params := acc.routed_expert_params
    model_type := c.model_type
    num_layers := n_layers
    num_moe_layers := n_layers
    num_dense_layers := 0
    num_mamba_layers := acc.num_linear_attn
    num_attention_layers := acc.num_full_attn }

/-! ## Concrete configurations used by claim witnesses and counterexamples -/

/-- Integer fields given by an association list (a literal `config.json`). -/
def listInts (l : List (String × Int)) : String → Option Int := fun k => l.lookup k

/-- A `llama` config: `model_type` is not in the registry; every other field
is absent. -/
def llama_raw : RawConfig := ⟨{ model_type := "llama", ints := fun _ => none }, none⟩

/-- A `nemotron_h` config without `hybrid_override_pattern`, so it takes the
uniform path (the registry entry has 2 MLP projections). -/
def nemotron_uniform_cfg : Config :=
  { model_type := "nemotron_h"
    ints := listInts [("hidden_size", 4), ("vocab_size", 10), ("num_hidden_layers", 2),
      ("intermediate_size", 8), ("num_experts_per_tok", 2), ("num_attention_heads", 2),
      ("num_key_value_heads", 1), ("head_dim", 2), ("n_routed_experts", 10),
      ("moe_intermediate_size", 8), ("moe_shared_expert_intermediate_size", 0)] }

/-- What `count_params_from_config` returns on `nemotron_uniform_cfg`. -/
def nemotron_uniform_expected : ParamCountResult :=
  { total_params := 1556, active_params := 532, routed_expert_params := 1920
    model_type := "nemotron_h", num_layers := 2, num_moe_layers := 2
    num_dense_layers := 0 }

/-- A small `nemotron_h` uniform-path config on which the routed-expert
count exceeds the total count. -/
def nemotron_small_cfg : Config :=
  { model_type := "nemotron_h"
    ints := listInts [("hidden_size", 1), ("vocab_size", 1), ("num_hidden_layers", 1),
      ("intermediate_size", 5), ("num_experts_per_tok", 1), ("num_attention_heads", 1),
      ("num_key_value_heads", 1), ("n_routed_experts", 10),
      ("moe_intermediate_size", 2), ("moe_shared_expert_intermediate_size", 0)] }

/-- What `count_params_from_config` returns on `nemotron_small_cfg`. -/
def nemotron_small_expected : ParamCountResult :=
  { total_params := 59, active_params := 23, routed_expert_params := 60
    model_type := "nemotron_h", num_layers := 1, num_moe_layers := 1
    num_dense_layers := 0 }

/-- An `fp8` quantization block with a non-empty `ignore` list. -/
def fp8_ignore_qc : QuantConfig := { quant_method := "fp8", ignore := ["lm_head"] }

/-- A config quantized with method `fp8` that excludes `lm_head` from
quantization. -/
def fp8_ignore_raw : RawConfig :=
  ⟨{ model_type := "deepseek_v32", ints := fun _ => none
     quantization_config := some fp8_ignore_qc }, none⟩

/-- A compressed-tensors quantization block (INT4) with a non-empty
`ignore` list. -/
def ct_qc : QuantConfig :=
  { quant_method := "compressed-tensors"
    config_groups := [{ weights := { num_bits := some 4, w_type := some "int" } }]
    ignore := ["lm_head"] }

/-- A config quantized with compressed-tensors INT4 and an ignore list. -/
def ct_raw : RawConfig :=
  ⟨{ model_type := "kimi_k2", ints := fun _ => none
     quantization_config := some ct_qc }, none⟩

/-- What `detect_precision` returns on `ct_raw`. -/
def ct_expected_info : PrecisionInfo :=
  { bytes_per_param := ((4 : Int) : ℚ) / 8
    dtype_str := String.toUpper "int" ++ toString (4 : Int)
    is_mixed := true }

/-- An `fp8` quantization block with no `ignore` list. -/
def fp8_plain_qc : QuantConfig := { quant_method := "fp8" }

/-- A config quantized with method `fp8` and no ignore list. -/
def fp8_plain_raw : RawConfig :=
  ⟨{ model_type := "qwen3_moe", ints := fun _ => none
     quantization_config := some fp8_plain_qc }, none⟩

/-- The seven fields the MLA per-layer cost reads. -/
def mla_field_keys : List String :=
  ["hidden_size", "num_attention_heads", "kv_lora_rank", "q_lora_rank",
   "qk_nope_head_dim", "qk_rope_head_dim", "v_head_dim"]

/-- MLA fields plus an extra irrelevant entry. -/
def mla_pure_cfg1 : Config :=
  { model_type := "kimi_k2"
    ints := listInts [("hidden_size", 2), ("num_attention_heads", 2),
      ("kv_lora_rank", 2), ("q_lora_rank", 3), ("qk_nope_head_dim", 2),
      ("qk_rope_head_dim", 1), ("v_head_dim", 2), ("num_key_value_heads", 9)] }

/-- The same MLA fields as `mla_pure_cfg1` but different irrelevant entries. -/
def mla_pure_cfg2 : Config :=
  { model_type := "kimi_k2"
    ints := listInts [("hidden_size", 2), ("num_attention_heads", 2),
      ("kv_lora_rank", 2), ("q_lora_rank", 3), ("qk_nope_head_dim", 2),
      ("qk_rope_head_dim", 1), ("v_head_dim", 2), ("first_k_dense_replace", 7)] }

/-- Like `mla_pure_cfg1` but with `kv_lora_rank` raised from 2 to 3. -/
def mla_mono_cfg2 : Config :=
  { model_type := "kimi_k2"
    ints := listInts [("hidden_size", 2), ("num_attention_heads", 2),
      ("kv_lora_rank", 3), ("q_lora_rank", 3), ("qk_nope_head_dim", 2),
      ("qk_rope_head_dim", 1), ("v_head_dim", 2)] }

/-- A GQA config with fewer KV heads than attention heads (no explicit
`head_dim`, so it is `hidden // heads = 1`). -/
def gqa_kv_cfg1 : Config :=
  { model_type := "qwen3_moe"
    ints := listInts [("hidden_size", 4), ("num_attention_heads", 4),
      ("num_key_value_heads", 2)] }

/-- `gqa_kv_cfg1` with `num_key_value_heads` equal to the head count. -/
def gqa_kv_cfg2 : Config :=
  { model_type := "qwen3_moe"
    ints := listInts [("hidden_size", 4), ("num_attention_heads", 4),
      ("num_key_value_heads", 4)] }

/-- A `qwen3_next` configuration taking the interval-hybrid path
(`full_attention_interval = 4`, 8 layers). -/
def qwen3_next_interval_cfg : Config :=
  { model_type := "qwen3_next"
    ints := listInts [("hidden_size", 4), ("vocab_size", 10), ("num_hidden_layers", 8),
      ("num_experts_per_tok", 2), ("full_attention_interval", 4),
      ("num_attention_heads", 2), ("num_key_value_heads", 1), ("head_dim", 2),
      ("linear_num_key_heads", 2), ("linear_key_head_dim", 2),
      ("linear_num_value_heads", 2), ("linear_value_head_dim", 2),
      ("linear_conv_kernel_dim", 3), ("num_experts", 4), ("moe_intermediate_size", 2),
      ("shared_expert_intermediate_size", 0)] }

/-- What `count_params_from_config` returns on `qwen3_next_interval_cfg`. -/
def qwen3_next_interval_expected : ParamCountResult :=
  { total_params := 1956, active_params := 1572, routed_expert_params := 768
    model_type := "qwen3_next", num_layers := 8, num_moe_layers := 8
    num_dense_layers := 0, num_mamba_layers := 6, num_attention_layers := 2 }

/-- The integer config keys whose values the parameter counter multiplies
into results, for a given field mapping (used to state sanity hypotheses). -/
def relevant_int_keys (mp : MoEFieldMapping) : List String :=
  ["hidden_size", "vocab_size", "num_hidden_layers", "intermediate_size",
   "num_experts_per_tok", "num_attention_heads", "num_key_value_heads", "head_dim",
   "kv_lora_rank", "q_lora_rank", "qk_nope_head_dim", "qk_rope_head_dim", "v_head_dim",
   "index_n_heads", "index_head_dim", "linear_num_key_heads", "linear_key_head_dim",
   "linear_num_value_heads", "linear_value_head_dim", "linear_conv_kernel_dim",
   "mamba_num_heads", "mamba_head_dim", "ssm_state_size", "n_group", "conv_kernel",
   "full_attention_interval"] ++
  [mp.expert_count_key, mp.shared_expert_key, mp.expert_intermediate_key] ++
  (match mp.dense_layers_key with | some k => [k] | none => []) ++
  (match mp.mtp_key with | some k => [k] | none => [])

/-- All integer fields the counter reads are nonnegative (model dimensions). -/
def NonnegCfg (c : Config) (mp : MoEFieldMapping) : Prop :=
  ∀ k ∈ relevant_int_keys mp, 0 ≤ (c.ints k).getD 0

/-- The per-accumulator invariant of the counting loops. -/
def HAccInv (acc : HybridAcc) : Prop :=
  0 ≤ acc.num_mamba ∧ 0 ≤ acc.num_attn ∧ 0 ≤ acc.num_moe ∧ 0 ≤ acc.num_dense_mlp ∧
  0 ≤ acc.routed_expert_params ∧ 0 ≤ acc.active_layer_params ∧
  acc.active_layer_params ≤ acc.total_layer_params ∧
  acc.routed_expert_params ≤ acc.total_layer_params

/-- A `nemotron_h` configuration taking the pattern-hybrid path
(pattern `M*-EME` over 6 layers). -/
def nemotron_hybrid_cfg : Config :=
  { model_type := "nemotron_h"
    ints := listInts [("hidden_size", 4), ("vocab_size", 10), ("num_hidden_layers", 6),
      ("num_experts_per_tok", 2), ("num_attention_heads", 2), ("num_key_value_heads", 1),
      ("head_dim", 2), ("mamba_num_heads", 2), ("mamba_head_dim", 2),
      ("ssm_state_size", 4), ("conv_kernel", 3), ("intermediate_size", 8),
      ("n_routed_experts", 4), ("moe_intermediate_size", 2),
      ("moe_shared_expert_intermediate_size", 3)]
    hybrid_override_pattern := some ['M', '*', '-', 'E', 'M', 'E'] }

/-- What `count_params_from_config` returns on `nemotron_hybrid_cfg`. -/
def nemotron_hybrid_expected : ParamCountResult :=
  { total_params := 656, active_params := 592, routed_expert_params := 128
    model_type := "nemotron_h", num_layers := 6, num_moe_layers := 2
    num_dense_layers := 1, num_mamba_layers := 2, num_attention_layers := 1 }

/-- Replace the `tie_word_embeddings` flag of a configuration. -/
def set_tie (c : Config) (b : Bool) : Config := { c with tie_word_embeddings := b }

/-- The DeepSeek-V3.2 configuration of the repository's test suite
(671B total / 37B active parameters). -/
def deepseek_v32_cfg : Config :=
  { model_type := "deepseek_v32"
    ints := listInts [("hidden_size", 7168), ("intermediate_size", 18432),
      ("num_hidden_layers", 61), ("num_attention_heads", 128),
      ("num_key_value_heads", 128), ("vocab_size", 129280), ("kv_lora_rank", 512),
      ("q_lora_rank", 1536), ("qk_nope_head_dim", 128), ("qk_rope_head_dim", 64),
      ("v_head_dim", 128), ("n_routed_experts", 256), ("num_experts_per_tok", 8),
      ("n_shared_experts", 1), ("moe_intermediate_size", 2048),
      ("first_k_dense_replace", 3), ("num_nextn_predict_layers", 1)] }

/-- What `count_params_from_config` returns on `deepseek_v32_cfg`
(untied embeddings). -/
def deepseek_v32_expected : ParamCountResult :=
  { total_params := 671129193472, active_params := 37655071744
    routed_expert_params := 653908770816, model_type := "deepseek_v32"
    num_layers := 61, num_moe_layers := 58, num_dense_layers := 3 }

/-- What `count_params_from_config` returns on `deepseek_v32_cfg` with tied
embeddings: exactly `vocab_size × hidden_size = 926679040` less, in both the
total and the active count. -/
def deepseek_v32_tied_expected : ParamCountResult :=
  { total_params := 670202514432, active_params := 36728392704
    routed_expert_params := 653908770816, model_type := "deepseek_v32"
    num_layers := 61, num_moe_layers := 58, num_dense_layers := 3 }

/-- Sanity: the per-token active expert count does not exceed the routed
expert count. -/
def SaneExperts (c : Config) (mp : MoEFieldMapping) : Prop :=
  (c.ints "num_experts_per_tok").getD 0 ≤ (c.ints mp.expert_count_key).getD 0

/-- Sanity: the declared dense-layer count does not exceed the layer count. -/
def SaneDenseSplit (c : Config) (mp : MoEFieldMapping) : Prop :=
  (match mp.dense_layers_key with
   | some k => (c.ints k).getD 0
   | none => 0) ≤ (c.ints "num_hidden_layers").getD 0

/-- Integer keys the counter reads only through `config.get` with a default
(never required). -/
def optional_int_keys : List String :=
  ["head_dim", "index_n_heads", "index_head_dim", "n_group",
   "num_nextn_predict_layers", "num_mtp_modules"]

/-- An integer-field map in which exactly the required field `k` is absent:
every other required field has value `val`, and the optional fields are
arbitrary (`oval`). -/
def missing_one_ints (k : String) (val : String → Int) (oval : String → Option Int) :
    String → Option Int :=
  fun s => if k = s then none else if s ∈ optional_int_keys then oval s else some (val s)

/-- A configuration in which exactly the required field `k` is absent. -/
def missing_one_cfg (mt k : String) (val : String → Int) (oval : String → Option Int)
    (tie : Bool) (pat : Option (List Char)) : Config :=
  { model_type := mt, ints := missing_one_ints k val oval
    tie_word_embeddings := tie, hybrid_override_pattern := pat }

/-- The required fields of the selected attention mixer. -/
def attn_keys (atype : AttentionType) : List String :=
  match atype with
  | .MLA => ["num_attention_heads", "kv_lora_rank", "q_lora_rank",
      "qk_nope_head_dim", "qk_rope_head_dim", "v_head_dim"]
  | .GQA => ["num_attention_heads", "num_key_value_heads"]

/-- The required fields of the uniform path, in the source's access order. -/
def uniform_required_keys (atype : AttentionType) (mp : MoEFieldMapping) : List String :=
  ["hidden_size", "vocab_size", "num_hidden_layers", "intermediate_size",
   "num_experts_per_tok"] ++
  (match mp.dense_layers_key with | some k => [k] | none => []) ++
  attn_keys atype ++
  [mp.expert_count_key, mp.expert_intermediate_key, mp.shared_expert_key]

/-- The required fields of the interval-hybrid path (the attention mixers
are always GQA plus the Qwen3-Next linear attention). -/
def interval_required_keys (mp : MoEFieldMapping) : List String :=
  ["hidden_size", "vocab_size", "num_hidden_layers", "num_experts_per_tok",
   "full_attention_interval", "num_attention_heads", "num_key_value_heads",
   "linear_num_key_heads", "linear_key_head_dim", "linear_num_value_heads",
   "linear_value_head_dim", "linear_conv_kernel_dim"] ++
  [mp.expert_count_key, mp.expert_intermediate_key, mp.shared_expert_key]

/-- The required fields of one pattern character on the pattern-hybrid path. -/
def hybrid_char_keys (atype : AttentionType) (mp : MoEFieldMapping) (ch : Char) :
    List String :=
  if ch = 'M' then ["mamba_num_heads", "mamba_head_dim", "ssm_state_size", "conv_kernel"]
  else if ch = '*' then attn_keys atype
  else if ch = '-' then ["intermediate_size"]
  else [mp.expert_count_key, mp.expert_intermediate_key, mp.shared_expert_key]

/-- The required fields of the pattern-hybrid path for a given pattern. -/
def hybrid_required_keys (atype : AttentionType) (mp : MoEFieldMapping)
    (p : List Char) : List String :=
  ["hidden_size", "vocab_size", "num_hidden_layers", "num_experts_per_tok"] ++
  p.flatMap (hybrid_char_keys atype mp)

/-- The required fields of a configuration: topology-dependent (pattern
hybrid, interval hybrid with a declared interval above 1, else uniform). -/
def required_keys (c : Config) (atype : AttentionType) (mp : MoEFieldMapping) :
    List String :=
  match c.hybrid_override_pattern with
  | some p => hybrid_required_keys atype mp p
  | none =>
      if (c.ints "full_attention_interval").getD 0 > 1 then interval_required_keys mp
      else uniform_required_keys atype mp

/-! ## Lemmas: reduction, evaluation on resolved configs, inversion -/

@[simp] theorem andThen_ok {α β : Type} (a : α) (f : α → Except String β) :
    andThen (.ok a) f = f a := rfl

@[simp] theorem andThen_error {α β : Type} (e : String) (f : α → Except String β) :
    andThen (.error e) f = (.error e : Except String β) := rfl

theorem require_eq_some {c : Config} {k : String} {v : Int} (h : c.ints k = some v) :
    require c k = .ok v := by
  simp [require, h]

theorem require_eq_none {c : Config} {k : String} (h : c.ints k = none) :
    require c k = .error (reqMsg k) := by
  simp [require, h]

theorem dsa_indexer_params_eval {c : Config} {hid : Int}
    (hh : c.ints "hidden_size" = some hid) :
    dsa_indexer_params c = .ok (dsa_val c hid) := by
  unfold dsa_indexer_params dsa_val
  cases h1 : c.ints "index_n_heads" <;> cases h2 : c.ints "index_head_dim" <;>
    simp [require, hh]

theorem mla_attention_params_eval {c : Config}
    {hid n_heads kv_lora_rank q_lora_rank qk_nope qk_rope v_head : Int}
    (hh : c.ints "hidden_size" = some hid)
    (hn : c.ints "num_attention_heads" = some n_heads)
    (hkv : c.ints "kv_lora_rank" = some kv_lora_rank)
    (hq : c.ints "q_lora_rank" = some q_lora_rank)
    (hqn : c.ints "qk_nope_head_dim" = some qk_nope)
    (hqr : c.ints "qk_rope_head_dim" = some qk_rope)
    (hv : c.ints "v_head_dim" = some v_head) :
    mla_attention_params c =
      .ok (mla_val hid n_heads kv_lora_rank q_lora_rank qk_nope qk_rope v_head) := by
  simp [mla_attention_params, mla_val, require, hh, hn, hkv, hq, hqn, hqr, hv]

theorem gqa_attention_params_eval {c : Config} {hid n_heads n_kv_heads : Int}
    (hh : c.ints "hidden_size" = some hid)
    (hn : c.ints "num_attention_heads" = some n_heads)
    (hk : c.ints "num_key_value_heads" = some n_kv_heads)
    (hnz : n_heads ≠ 0) :
    gqa_attention_params c = .ok (gqa_val c hid n_heads n_kv_heads) := by
  simp [gqa_attention_params, gqa_val, require, pyFloorDiv, hh, hn, hk, hnz]

theorem gqa_kv_proj_params_eval {c : Config} {hid n_heads n_kv_heads : Int}
    (hh : c.ints "hidden_size" = some hid)
    (hn : c.ints "num_attention_heads" = some n_heads)
    (hk : c.ints "num_key_value_heads" = some n_kv_heads)
    (hnz : n_heads ≠ 0) :
    gqa_kv_proj_params c =
      .ok (hid * (n_kv_heads * gqa_head_dim c hid n_heads) +
        hid * (n_kv_heads * gqa_head_dim c hid n_heads)) := by
  simp [gqa_kv_proj_params, require, pyFloorDiv, hh, hn, hk, hnz]

theorem qwen3_next_linear_attn_params_eval {c : Config}
    {hid n_attn_heads lk lkd lv lvd ck : Int}
    (hh : c.ints "hidden_size" = some hid)
    (hn : c.ints "num_attention_heads" = some n_attn_heads)
    (h1 : c.ints "linear_num_key_heads" = some lk)
    (h2 : c.ints "linear_key_head_dim" = some lkd)
    (h3 : c.ints "linear_num_value_heads" = some lv)
    (h4 : c.ints "linear_value_head_dim" = some lvd)
    (h5 : c.ints "linear_conv_kernel_dim" = some ck)
    (hnz : n_attn_heads ≠ 0) :
    qwen3_next_linear_attn_params c =
      .ok (linear_attn_val c hid n_attn_heads lk lkd lv lvd ck) := by
  simp [qwen3_next_linear_attn_params, linear_attn_val, require, pyFloorDiv,
    hh, hn, h1, h2, h3, h4, h5, hnz]

theorem mamba2_layer_params_eval {c : Config}
    {hid num_heads head_dim ssm_state conv_kernel : Int}
    (hh : c.ints "hidden_size" = some hid)
    (h1 : c.ints "mamba_num_heads" = some num_heads)
    (h2 : c.ints "mamba_head_dim" = some head_dim)
    (h3 : c.ints "ssm_state_size" = some ssm_state)
    (h4 : c.ints "conv_kernel" = some conv_kernel) :
    mamba2_layer_params c =
      .ok (mamba2_val c hid num_heads head_dim ssm_state conv_kernel) := by
  simp [mamba2_layer_params, mamba2_val, require, hh, h1, h2, h3, h4]

theorem moe_layer_params_eval {c : Config} {mp : MoEFieldMapping}
    {hid ne ei sh : Int} (o : Option Int)
    (hh : c.ints "hidden_size" = some hid)
    (hc : c.ints mp.expert_count_key = some ne)
    (hi : c.ints mp.expert_intermediate_key = some ei)
    (hs : c.ints mp.shared_expert_key = some sh) :
    moe_layer_params c mp o = .ok (moe_layer_val mp hid ne ei sh o) := by
  simp [moe_layer_params, moe_layer_val, moe_shared_val, require, hh, hc, hi, hs]

theorem count_uniform_params_eval {c : Config} {atype : AttentionType}
    {mp : MoEFieldMapping} {hid vocab n_layers intermediate n_act dl ap ne ei sh : Int}
    (hh : c.ints "hidden_size" = some hid)
    (hv : c.ints "vocab_size" = some vocab)
    (hl : c.ints "num_hidden_layers" = some n_layers)
    (hi : c.ints "intermediate_size" = some intermediate)
    (ha : c.ints "num_experts_per_tok" = some n_act)
    (hdl : dense_layers_req c mp = .ok dl)
    (hat : attention_params atype c = .ok ap)
    (hcnt : c.ints mp.expert_count_key = some ne)
    (hint : c.ints mp.expert_intermediate_key = some ei)
    (hsh : c.ints mp.shared_expert_key = some sh) :
    count_uniform_params c atype mp =
      .ok (uniform_result c mp hid vocab n_layers intermediate n_act dl ap ne ei sh) := by
  have hm1 := moe_layer_params_eval none hh hcnt hint hsh
  have hm2 := moe_layer_params_eval (some n_act) hh hcnt hint hsh
  have hds := dsa_indexer_params_eval hh
  simp only [count_uniform_params, require_eq_some hh, require_eq_some hv,
    require_eq_some hl, require_eq_some hi, require_eq_some ha,
    require_eq_some hcnt, require_eq_some hint, hdl, hat, hm1, hm2, hds, andThen_ok]
  simp [uniform_result, lm_head_val]

theorem count_uniform_params_inv {c : Config} {atype : AttentionType}
    {mp : MoEFieldMapping} {r : ParamCountResult}
    (h : count_uniform_params c atype mp = .ok r) :
    ∃ hid vocab n_layers intermediate n_act dl ap ne ei sh,
      c.ints "hidden_size" = some hid ∧
      c.ints "vocab_size" = some vocab ∧
      c.ints "num_hidden_layers" = some n_layers ∧
      c.ints "intermediate_size" = some intermediate ∧
      c.ints "num_experts_per_tok" = some n_act ∧
      dense_layers_req c mp = .ok dl ∧
      attention_params atype c = .ok ap ∧
      c.ints mp.expert_count_key = some ne ∧
      c.ints mp.expert_intermediate_key = some ei ∧
      c.ints mp.shared_expert_key = some sh ∧
      r = uniform_result c mp hid vocab n_layers intermediate n_act dl ap ne ei sh := by
  cases hh : c.ints "hidden_size" with
  | none => simp [count_uniform_params, require, hh] at h
  | some hid =>
  cases hv : c.ints "vocab_size" with
  | none => simp [count_uniform_params, require, hh, hv] at h
  | some vocab =>
  cases hl : c.ints "num_hidden_layers" with
  | none => simp [count_uniform_params, require, hh, hv, hl] at h
  | some n_layers =>
  cases hi : c.ints "intermediate_size" with
  | none => simp [count_uniform_params, require, hh, hv, hl, hi] at h
  | some intermediate =>
  cases ha : c.ints "num_experts_per_tok" with
  | none => simp [count_uniform_params, require, hh, hv, hl, hi, ha] at h
  | some n_act =>
  cases hdl : dense_layers_req c mp with
  | error e => simp [count_uniform_params, require, hh, hv, hl, hi, ha, hdl] at h
  | ok dl =>
  cases hat : attention_params atype c with
  | error e => simp [count_uniform_params, require, hh, hv, hl, hi, ha, hdl, hat] at h
  | ok ap =>
  cases hcnt : c.ints mp.expert_count_key with
  | none => simp [count_uniform_params, require, hh, hv, hl, hi, ha, hdl, hat, hcnt] at h
  | some ne =>
  cases hint : c.ints mp.expert_intermediate_key with
  | none =>
      simp [count_uniform_params, require, hh, hv, hl, hi, ha, hdl, hat, hcnt, hint] at h
  | some ei =>
  cases hsh : c.ints mp.shared_expert_key with
  | none =>
      have hds := dsa_indexer_params_eval hh
      simp [count_uniform_params, moe_layer_params, require, hh, hv, hl, hi, ha, hdl,
        hat, hcnt, hint, hsh, hds] at h
  | some sh =>
  have heval := count_uniform_params_eval hh hv hl hi ha hdl hat hcnt hint hsh
  rw [heval] at h
  exact ⟨hid, vocab, n_layers, intermediate, n_act, dl, ap, ne, ei, sh,
    rfl, rfl, rfl, rfl, rfl, rfl, rfl, rfl, rfl, rfl, ((Except.ok.injEq _ _).mp h).symm⟩

theorem count_hybrid_params_eval {c : Config} {atype : AttentionType}
    {mp : MoEFieldMapping} {hid vocab n_layers n_act : Int} {acc : HybridAcc}
    (hh : c.ints "hidden_size" = some hid)
    (hv : c.ints "vocab_size" = some vocab)
    (hl : c.ints "num_hidden_layers" = some n_layers)
    (ha : c.ints "num_experts_per_tok" = some n_act)
    (hlen : ((c.hybrid_override_pattern.getD []).length : Int) = n_layers)
    (hloop : hybrid_loop c atype mp hid n_act {}
      (c.hybrid_override_pattern.getD []) = .ok acc) :
    count_hybrid_params c atype mp = .ok (hybrid_result c hid vocab n_layers acc) := by
  have hne : ¬(((c.hybrid_override_pattern.getD []).length : Int) ≠ n_layers) :=
    fun hcon => hcon hlen
  simp only [count_hybrid_params, require_eq_some hh, require_eq_some hv,
    require_eq_some hl, require_eq_some ha, andThen_ok, if_neg hne, hloop]
  simp [hybrid_result, lm_head_val]

theorem count_hybrid_params_inv {c : Config} {atype : AttentionType}
    {mp : MoEFieldMapping} {r : ParamCountResult}
    (h : count_hybrid_params c atype mp = .ok r) :
    ∃ hid vocab n_layers n_act acc,
      c.ints "hidden_size" = some hid ∧
      c.ints "vocab_size" = some vocab ∧
      c.ints "num_hidden_layers" = some n_layers ∧
      c.ints "num_experts_per_tok" = some n_act ∧
      ((c.hybrid_override_pattern.getD []).length : Int) = n_layers ∧
      hybrid_loop c atype mp hid n_act {} (c.hybrid_override_pattern.getD []) = .ok acc ∧
      r = hybrid_result c hid vocab n_layers acc := by
  cases hh : c.ints "hidden_size" with
  | none => simp [count_hybrid_params, require, hh] at h
  | some hid =>
  cases hv : c.ints "vocab_size" with
  | none => simp [count_hybrid_params, require, hh, hv] at h
  | some vocab =>
  cases hl : c.ints "num_hidden_layers" with
  | none => simp [count_hybrid_params, require, hh, hv, hl] at h
  | some n_layers =>
  cases ha : c.ints "num_experts_per_tok" with
  | none => simp [count_hybrid_params, require, hh, hv, hl, ha] at h
  | some n_act =>
  by_cases hlen : ((c.hybrid_override_pattern.getD []).length : Int) = n_layers
  · cases hloop : hybrid_loop c atype mp hid n_act {} (c.hybrid_override_pattern.getD []) with
    | error e => simp [count_hybrid_params, require, hh, hv, hl, ha, hlen, hloop] at h
    | ok acc =>
        have heval := count_hybrid_params_eval
          hh hv hl ha hlen hloop
        rw [heval] at h
        exact ⟨hid, vocab, n_layers, n_act, acc, rfl, rfl, rfl, rfl, hlen, hloop,
          ((Except.ok.injEq _ _).mp h).symm⟩
  · simp [count_hybrid_params, require, hh, hv, hl, ha, hlen] at h

theorem count_interval_hybrid_params_eval {c : Config} {atype : AttentionType}
    {mp : MoEFieldMapping} {hid vocab n_layers n_act itv gq ln ne ei sh : Int}
    (hh : c.ints "hidden_size" = some hid)
    (hv : c.ints "vocab_size" = some vocab)
    (hl : c.ints "num_hidden_layers" = some n_layers)
    (ha : c.ints "num_experts_per_tok" = some n_act)
    (hitv : c.ints "full_attention_interval" = some itv)
    (hgqa : gqa_attention_params c = .ok gq)
    (hlin : qwen3_next_linear_attn_params c = .ok ln)
    (hcnt : c.ints mp.expert_count_key = some ne)
    (hint : c.ints mp.expert_intermediate_key = some ei)
    (hsh : c.ints mp.shared_expert_key = some sh) :
    count_interval_hybrid_params c atype mp =
      .ok (interval_result c hid vocab n_layers
        (interval_accum itv (2 * hid) gq ln (moe_layer_val mp hid ne ei sh none)
          (moe_layer_val mp hid ne ei sh (some n_act))
          (ne * dense_mlp_params hid ei mp.num_mlp_projections) n_layers.toNat)) := by
  have hm1 := moe_layer_params_eval none hh hcnt hint hsh
  have hm2 := moe_layer_params_eval (some n_act) hh hcnt hint hsh
  simp only [count_interval_hybrid_params, require_eq_some hh, require_eq_some hv,
    require_eq_some hl, require_eq_some ha, require_eq_some hitv,
    require_eq_some hcnt, require_eq_some hint, hgqa, hlin, hm1, hm2, andThen_ok]
  simp [interval_result, lm_head_val]

theorem count_interval_hybrid_params_inv {c : Config} {atype : AttentionType}
    {mp : MoEFieldMapping} {r : ParamCountResult}
    (h : count_interval_hybrid_params c atype mp = .ok r) :
    ∃ hid vocab n_layers n_act itv gq ln ne ei sh,
      c.ints "hidden_size" = some hid ∧
      c.ints "vocab_size" = some vocab ∧
      c.ints "num_hidden_layers" = some n_layers ∧
      c.ints "num_experts_per_tok" = some n_act ∧
      c.ints "full_attention_interval" = some itv ∧
      gqa_attention_params c = .ok gq ∧
      qwen3_next_linear_attn_params c = .ok ln ∧
      c.ints mp.expert_count_key = some ne ∧
      c.ints mp.expert_intermediate_key = some ei ∧
      c.ints mp.shared_expert_key = some sh ∧
      r = interval_result c hid vocab n_layers
        (interval_accum itv (2 * hid) gq ln (moe_layer_val mp hid ne ei sh none)
          (moe_layer_val mp hid ne ei sh (some n_act))
          (ne * dense_mlp_params hid ei mp.num_mlp_projections) n_layers.toNat) := by
  cases hh : c.ints "hidden_size" with
  | none => simp [count_interval_hybrid_params, require, hh] at h
  | some hid =>
  cases hv : c.ints "vocab_size" with
  | none => simp [count_interval_hybrid_params, require, hh, hv] at h
  | some vocab =>
  cases hl : c.ints "num_hidden_layers" with
  | none => simp [count_interval_hybrid_params, require, hh, hv, hl] at h
  | some n_layers =>
  cases ha : c.ints "num_experts_per_tok" with
  | none => simp [count_interval_hybrid_params, require, hh, hv, hl, ha] at h
  | some n_act =>
  cases hitv : c.ints "full_attention_interval" with
  | none => simp [count_interval_hybrid_params, require, hh, hv, hl, ha, hitv] at h
  | some itv =>
  cases hgqa : gqa_attention_params c with
  | error e =>
      simp [count_interval_hybrid_params, require, hh, hv, hl, ha, hitv, hgqa] at h
  | ok gq =>
  cases hlin : qwen3_next_linear_attn_params c with
  | error e =>
      simp [count_interval_hybrid_params, require, hh, hv, hl, ha, hitv, hgqa, hlin] at h
  | ok ln =>
  cases hcnt : c.ints mp.expert_count_key with
  | none =>
      simp [count_interval_hybrid_params, moe_layer_params, require, hh, hv, hl, ha,
        hitv, hgqa, hlin, hcnt] at h
  | some ne =>
  cases hint : c.ints mp.expert_intermediate_key with
  | none =>
      simp [count_interval_hybrid_params, moe_layer_params, require, hh, hv, hl, ha,
        hitv, hgqa, hlin, hcnt, hint] at h
  | some ei =>
  cases hsh : c.ints mp.shared_expert_key with
  | none =>
      simp [count_interval_hybrid_params, moe_layer_params, require, hh, hv, hl, ha,
        hitv, hgqa, hlin, hcnt, hint, hsh] at h
  | some sh =>
  have heval := @count_interval_hybrid_params_eval c atype mp _ _ _ _ _ _ _ _ _ _
    hh hv hl ha hitv hgqa hlin hcnt hint hsh
  rw [heval] at h
  exact ⟨hid, vocab, n_layers, n_act, itv, gq, ln, ne, ei, sh,
    rfl, rfl, rfl, rfl, rfl, rfl, rfl, rfl, rfl, rfl, ((Except.ok.injEq _ _).mp h).symm⟩

/-! ## Claim C4: unknown architecture -/

/-- **C4**: when the normalized configuration's `model_type` has no entry in
the architecture registry, `count_params_from_config` fails with an error
naming that identifier.  The statement holds for an arbitrary `ints` map —
in particular for configurations in which every field is absent — so the
failure happens before any required-field access is attempted. -/
theorem c4_unknown_architecture_error (raw : RawConfig) (c : Config)
    (hres : resolve_text_config raw = .ok c)
    (hreg : KNOWN_ARCHITECTURES c.model_type = none) :
    count_params_from_config raw =
      .error ("Unknown model_type='" ++ c.model_type ++ "'") := by
  simp [count_params_from_config, hres, count_params_core, hreg]

/-- Witness for C4 at the `llama` configuration with every field absent. -/
theorem c4_unknown_architecture_error_witness :
    resolve_text_config llama_raw = .ok llama_raw.base ∧
    KNOWN_ARCHITECTURES llama_raw.base.model_type = none ∧
    count_params_from_config llama_raw = .error "Unknown model_type='llama'" :=
  ⟨rfl, rfl, c4_unknown_architecture_error llama_raw llama_raw.base rfl rfl⟩

/-! ## Claim C2: the uniform path's routed-expert term -/

/-- **C2**: on the uniform path the routed-expert count is computed with the
*default* 3 MLP projections (`_dense_mlp_params(hidden, expert_intermediate)`
with no `num_projections` argument), not with the registry entry's
projection count: for `nemotron_h` (registry count 2) the result is
`num_moe_layers × expert_count × (3 × hidden × expert_intermediate)`, which
differs from the claimed registry-count product. -/
theorem c2_uniform_routed_uses_default_projections :
    KNOWN_ARCHITECTURES "nemotron_h" = some (AttentionType.GQA, nemotron_mapping) ∧
    nemotron_mapping.num_mlp_projections = 2 ∧
    count_params_from_config ⟨nemotron_uniform_cfg, none⟩ = .ok nemotron_uniform_expected ∧
    nemotron_uniform_expected.routed_expert_params = 2 * 10 * dense_mlp_params 4 8 3 ∧
    nemotron_uniform_expected.routed_expert_params ≠
      2 * 10 * dense_mlp_params 4 8 nemotron_mapping.num_mlp_projections := by
  refine ⟨rfl, rfl, ?_, by decide, by decide⟩
  rfl

/-! ## Claim C1 counterexample -/

/-- Counterexample to **C1** as stated: on `nemotron_small_cfg` (a
`nemotron_h` configuration taking the uniform path) `count_params_from_config`
succeeds with `routed_expert_params = 60 > 59 = total_params`, because the
uniform path computes the routed-expert term with 3 MLP projections while
the total uses the registry's 2. -/
theorem c1_counterexample_routed_exceeds_total :
    count_params_from_config ⟨nemotron_small_cfg, none⟩ = .ok nemotron_small_expected ∧
    ¬(nemotron_small_expected.routed_expert_params ≤
      nemotron_small_expected.total_params) :=
  ⟨rfl, by decide⟩

/-! ## Claim C3: the mixed-precision flag -/

/-- Counterexample to **C3** as stated: a configuration using quantization
method `fp8` with the non-empty ignore list `["lm_head"]` is reported with
`is_mixed = false` — the `fp8` branch of `detect_precision` never reads the
ignore list. -/
theorem c3_counterexample_fp8_ignore_not_mixed :
    fp8_ignore_qc.ignore ≠ [] ∧
    resolve_text_config fp8_ignore_raw = .ok fp8_ignore_raw.base ∧
    fp8_ignore_raw.base.quantization_config = some fp8_ignore_qc ∧
    (detect_precision fp8_ignore_raw).map PrecisionInfo.is_mixed = .ok false :=
  ⟨by decide, rfl, rfl, rfl⟩

/-- Any successful `config_groups` scan reports `is_mixed` exactly when the
quantization block's ignore list is non-empty. -/
theorem scan_config_groups_is_mixed (qc : QuantConfig) (gs : List QuantGroup)
    (info : PrecisionInfo) (h : scan_config_groups qc gs = .ok info) :
    info.is_mixed = !qc.ignore.isEmpty := by
  induction gs with
  | nil => simp [scan_config_groups] at h
  | cons g rest ih =>
      cases hnb : g.weights.num_bits with
      | none => exact ih (by simpa [scan_config_groups, hnb] using h)
      | some nb =>
          cases hwt : g.weights.w_type with
          | none => exact ih (by simpa [scan_config_groups, hnb, hwt] using h)
          | some t =>
              by_cases hc : nb ≠ 0 ∧ t ≠ ""
              · have h' : Except.ok (ε := String)
                    ({ bytes_per_param := (nb : ℚ) / 8
                       dtype_str := t.toUpper ++ toString nb
                       is_mixed := !qc.ignore.isEmpty } : PrecisionInfo) = .ok info := by
                  simpa [scan_config_groups, hnb, hwt, hc] using h
                obtain rfl := ((Except.ok.injEq _ _).mp h').symm
                rfl
              · exact ih (by simpa [scan_config_groups, hnb, hwt, hc] using h)

/-- **C3 (amended)**: for the `compressed-tensors` method, `is_mixed` is
true exactly when the "ignore" list is non-empty; for the `fp8` method the
flag is always false (the ignore list is not consulted). -/
theorem c3_is_mixed_amended :
    (∀ (raw : RawConfig) (c : Config) (qc : QuantConfig) (info : PrecisionInfo),
      resolve_text_config raw = .ok c →
      c.quantization_config = some qc →
      qc.quant_method = "compressed-tensors" →
      detect_precision raw = .ok info →
      (info.is_mixed = true ↔ qc.ignore ≠ [])) ∧
    (∀ (raw : RawConfig) (c : Config) (qc : QuantConfig),
      resolve_text_config raw = .ok c →
      c.quantization_config = some qc →
      qc.quant_method = "fp8" →
      detect_precision raw =
        .ok { bytes_per_param := 1, dtype_str := "FP8", is_mixed := false }) := by
  constructor
  · intro raw c qc info hres hqc hm h
    have hscan : scan_config_groups qc qc.config_groups = .ok info := by
      simpa [detect_precision, hres, hqc, hm] using h
    have := scan_config_groups_is_mixed qc qc.config_groups info hscan
    rw [this]
    cases hi : qc.ignore <;> simp [hi]
  · intro raw c qc hres hqc hm
    simp [detect_precision, hres, hqc, hm]

/-- Witness for C3 (amended): the compressed-tensors INT4 config with a
non-empty ignore list is mixed; the plain fp8 config is not. -/
theorem c3_is_mixed_amended_witness :
    (resolve_text_config ct_raw = .ok ct_raw.base ∧
     ct_raw.base.quantization_config = some ct_qc ∧
     ct_qc.quant_method = "compressed-tensors" ∧
     detect_precision ct_raw = .ok ct_expected_info ∧
     (ct_expected_info.is_mixed = true ↔ ct_qc.ignore ≠ [])) ∧
    (resolve_text_config fp8_plain_raw = .ok fp8_plain_raw.base ∧
     fp8_plain_raw.base.quantization_config = some fp8_plain_qc ∧
     fp8_plain_qc.quant_method = "fp8" ∧
     detect_precision fp8_plain_raw =
       .ok { bytes_per_param := 1, dtype_str := "FP8", is_mixed := false }) :=
  ⟨⟨rfl, rfl, rfl, rfl,
    c3_is_mixed_amended.1 ct_raw ct_raw.base ct_qc ct_expected_info rfl rfl rfl rfl⟩,
   ⟨rfl, rfl, rfl,
    c3_is_mixed_amended.2 fp8_plain_raw fp8_plain_raw.base fp8_plain_qc rfl rfl rfl⟩⟩

/-! ## Claim C7: the MLA cost is a pure, monotone function of its fields -/

/-- **C7**: the MLA per-layer cost depends on the configuration only through
(`hidden_size`, `num_attention_heads`, `kv_lora_rank`, `q_lora_rank`,
`qk_nope_head_dim`, `qk_rope_head_dim`, `v_head_dim`) — two configurations
agreeing on those entries get the same result — and for two configurations
that agree on all of them except `kv_lora_rank` (the relevant dimensions
being nonnegative), the one with strictly larger `kv_lora_rank` has strictly
larger per-layer MLA cost. -/
theorem c7_mla_pure_function_and_monotone :
    (∀ c1 c2 : Config, (∀ k ∈ mla_field_keys, c1.ints k = c2.ints k) →
      mla_attention_params c1 = mla_attention_params c2) ∧
    (∀ (c1 c2 : Config) (hid n_heads q qk_nope qk_rope v_head r1 r2 m1 m2 : Int),
      c1.ints "hidden_size" = some hid → c2.ints "hidden_size" = some hid →
      c1.ints "num_attention_heads" = some n_heads →
      c2.ints "num_attention_heads" = some n_heads →
      c1.ints "q_lora_rank" = some q → c2.ints "q_lora_rank" = some q →
      c1.ints "qk_nope_head_dim" = some qk_nope →
      c2.ints "qk_nope_head_dim" = some qk_nope →
      c1.ints "qk_rope_head_dim" = some qk_rope →
      c2.ints "qk_rope_head_dim" = some qk_rope →
      c1.ints "v_head_dim" = some v_head → c2.ints "v_head_dim" = some v_head →
      c1.ints "kv_lora_rank" = some r1 → c2.ints "kv_lora_rank" = some r2 →
      0 ≤ hid → 0 ≤ n_heads → 0 ≤ qk_nope → 0 ≤ v_head → r1 < r2 →
      mla_attention_params c1 = .ok m1 → mla_attention_params c2 = .ok m2 →
      m1 < m2) := by
  constructor
  · intro c1 c2 hag
    have e1 := hag "hidden_size" (by simp [mla_field_keys])
    have e2 := hag "num_attention_heads" (by simp [mla_field_keys])
    have e3 := hag "kv_lora_rank" (by simp [mla_field_keys])
    have e4 := hag "q_lora_rank" (by simp [mla_field_keys])
    have e5 := hag "qk_nope_head_dim" (by simp [mla_field_keys])
    have e6 := hag "qk_rope_head_dim" (by simp [mla_field_keys])
    have e7 := hag "v_head_dim" (by simp [mla_field_keys])
    simp only [mla_attention_params, require, e1, e2, e3, e4, e5, e6, e7]
  · intro c1 c2 hid n_heads q qk_nope qk_rope v_head r1 r2 m1 m2
      h1 h1' h2 h2' h3 h3' h4 h4' h5 h5' h6 h6' hr1 hr2 hhid hn hnope hv hlt hm1 hm2
    have e1 := mla_attention_params_eval h1 h2 hr1 h3 h4 h5 h6
    have e2 := mla_attention_params_eval h1' h2' hr2 h3' h4' h5' h6'
    rw [hm1] at e1
    rw [hm2] at e2
    obtain rfl := (Except.ok.injEq _ _).mp e1
    obtain rfl := (Except.ok.injEq _ _).mp e2
    have key : mla_val hid n_heads r2 q qk_nope qk_rope v_head -
        mla_val hid n_heads r1 q qk_nope qk_rope v_head =
        (r2 - r1) * (hid + 1 + n_heads * (qk_nope + v_head)) := by
      unfold mla_val; ring
    have hfac : 0 < hid + 1 + n_heads * (qk_nope + v_head) := by
      have := mul_nonneg hn (add_nonneg hnope hv)
      linarith
    have hpos : 0 < (r2 - r1) * (hid + 1 + n_heads * (qk_nope + v_head)) :=
      mul_pos (by omega) hfac
    omega

/-- Witness for C7: equal MLA fields with different irrelevant entries give
equal results; raising `kv_lora_rank` from 2 to 3 raises the cost 59 → 70. -/
theorem c7_mla_pure_function_and_monotone_witness :
    ((∀ k ∈ mla_field_keys, mla_pure_cfg1.ints k = mla_pure_cfg2.ints k) ∧
      mla_attention_params mla_pure_cfg1 = mla_attention_params mla_pure_cfg2) ∧
    (mla_attention_params mla_pure_cfg1 = .ok 59 ∧
      mla_attention_params mla_mono_cfg2 = .ok 70 ∧
      (59 : Int) < 70) :=
  ⟨⟨by decide, c7_mla_pure_function_and_monotone.1 mla_pure_cfg1 mla_pure_cfg2 (by decide)⟩,
   ⟨rfl, rfl,
    c7_mla_pure_function_and_monotone.2 mla_pure_cfg1 mla_mono_cfg2
      2 2 3 2 1 2 2 3 59 70 rfl rfl rfl rfl rfl rfl rfl rfl rfl rfl rfl rfl rfl rfl
      (by decide) (by decide) (by decide) (by decide) (by decide) rfl rfl⟩⟩

/-! ## Claim C8: GQA key/value projection cost -/

/-- **C8**: for two GQA configurations identical except that the first has
`num_key_value_heads = kv1 <` `num_attention_heads = n_heads` while the
second has `num_key_value_heads = n_heads`, the key-plus-value projection
cost (`hidden × kv_heads × head_dim` each, with the head dimension
`config.get("head_dim", hidden // heads)`) of the first is strictly smaller
— provided `hidden` and the effective head dimension are positive. -/
theorem c8_gqa_kv_cost_strictly_smaller (c1 c2 : Config)
    (hid n_heads kv1 a b : Int)
    (h1 : c1.ints "hidden_size" = some hid) (h1' : c2.ints "hidden_size" = some hid)
    (h2 : c1.ints "num_attention_heads" = some n_heads)
    (h2' : c2.ints "num_attention_heads" = some n_heads)
    (h3 : c1.ints "num_key_value_heads" = some kv1)
    (h3' : c2.ints "num_key_value_heads" = some n_heads)
    (hhd : c1.ints "head_dim" = c2.ints "head_dim")
    (hhid : 0 < hid) (hkv : 0 ≤ kv1) (hlt : kv1 < n_heads)
    (hd_pos : 0 < gqa_head_dim c1 hid n_heads)
    (ha : gqa_kv_proj_params c1 = .ok a) (hb : gqa_kv_proj_params c2 = .ok b) :
    a = hid * (kv1 * gqa_head_dim c1 hid n_heads) +
      hid * (kv1 * gqa_head_dim c1 hid n_heads) ∧ a < b := by
  have hnz : n_heads ≠ 0 := by omega
  have hdeq : gqa_head_dim c2 hid n_heads = gqa_head_dim c1 hid n_heads := by
    unfold gqa_head_dim; rw [hhd]
  have e1 := gqa_kv_proj_params_eval h1 h2 h3 hnz
  have e2 := gqa_kv_proj_params_eval h1' h2' h3' hnz
  rw [ha] at e1
  rw [hb] at e2
  obtain rfl := (Except.ok.injEq _ _).mp e1
  obtain rfl := (Except.ok.injEq _ _).mp e2
  rw [hdeq]
  refine ⟨rfl, ?_⟩
  have hstep : hid * (kv1 * gqa_head_dim c1 hid n_heads) <
      hid * (n_heads * gqa_head_dim c1 hid n_heads) := by
    apply mul_lt_mul_of_pos_left _ hhid
    exact mul_lt_mul_of_pos_right hlt hd_pos
  omega

/-- Witness for C8: `hidden = 4, heads = 4`, implicit head dimension 1;
2 KV heads cost 16, 4 KV heads cost 32. -/
theorem c8_gqa_kv_cost_strictly_smaller_witness :
    gqa_kv_proj_params gqa_kv_cfg1 = .ok 16 ∧
    gqa_kv_proj_params gqa_kv_cfg2 = .ok 32 ∧
    ((16 : Int) = 4 * (2 * gqa_head_dim gqa_kv_cfg1 4 4) +
      4 * (2 * gqa_head_dim gqa_kv_cfg1 4 4) ∧ (16 : Int) < 32) :=
  ⟨rfl, rfl,
   c8_gqa_kv_cost_strictly_smaller gqa_kv_cfg1 gqa_kv_cfg2 4 4 2 16 32
     rfl rfl rfl rfl rfl rfl rfl (by decide) (by decide) (by decide) (by decide)
     rfl rfl⟩

/-! ## Claim C6: interval-hybrid layer accounting -/

/-- Layer `i` (0-indexed) gets full attention exactly when its 1-indexed
position `i + 1` is a multiple of the interval. -/
theorem usesFullAttention_iff_dvd (N : Int) (i : Nat) :
    usesFullAttention N i = true ↔ N ∣ ((i : Int) + 1) := by
  simp only [usesFullAttention, decide_eq_true_eq]
  exact ⟨fun h => Int.dvd_of_emod_eq_zero h, fun h => Int.emod_eq_zero_of_dvd h⟩

/-- The interval loop counts `⌊n / N⌋` full-attention layers among the
first `n`, and the rest use the linear mixer. -/
theorem interval_accum_counts (itv : Int) (hitv : 1 < itv)
    (norms g l mt ma rp : Int) (n : Nat) :
    (interval_accum itv norms g l mt ma rp n).num_full_attn =
      ((n / itv.toNat : Nat) : Int) ∧
    (interval_accum itv norms g l mt ma rp n).num_linear_attn =
      (n : Int) - ((n / itv.toNat : Nat) : Int) := by
  induction n with
  | zero => simp [interval_accum]
  | succ n ih =>
      have hNt : itv.toNat ≠ 0 := by omega
      have hdvd : usesFullAttention itv n = true ↔ (itv.toNat ∣ n + 1) := by
        rw [usesFullAttention_iff_dvd]
        have h3 : itv = (itv.toNat : Int) := by omega
        constructor
        · intro h
          rw [h3] at h
          exact_mod_cast Int.ofNat_dvd.mp (by exact_mod_cast h)
        · intro h
          rw [h3]
          exact_mod_cast Int.ofNat_dvd.mpr h
      rw [Nat.succ_div]
      by_cases hu : usesFullAttention itv n = true
      · have hd : itv.toNat ∣ n + 1 := hdvd.mp hu
        simp only [interval_accum, hu, if_true, if_pos hd]
        constructor
        · rw [ih.1]; push_cast; ring
        · rw [ih.2]; push_cast; ring
      · have hd : ¬(itv.toNat ∣ n + 1) := fun hh => hu (hdvd.mpr hh)
        simp only [interval_accum, hu, if_false, if_neg hd, Bool.false_eq_true]
        constructor
        · rw [ih.1]; push_cast; ring
        · rw [ih.2]; push_cast; ring

/-- **C6**: on the interval-hybrid path with interval `N > 1` and a
nonnegative layer count `L`, a layer gets full GQA attention exactly at the
1-indexed positions that are multiples of `N`; the result reports
`⌊L / N⌋` full-attention layers, `L − ⌊L / N⌋` linear-attention (mamba
counter) layers, all `L` layers as MoE layers, and zero dense layers. -/
theorem c6_interval_hybrid_layer_split (c : Config) (atype : AttentionType)
    (mp : MoEFieldMapping) (r : ParamCountResult) (N : Int)
    (hreg : KNOWN_ARCHITECTURES c.model_type = some (atype, mp))
    (hpat : c.hybrid_override_pattern = none)
    (hN : c.ints "full_attention_interval" = some N) (hN1 : 1 < N)
    (h : count_params_core c = .ok r) (hL : 0 ≤ r.num_layers) :
    (∀ i : Nat, usesFullAttention N i = true ↔ N ∣ ((i : Int) + 1)) ∧
    r.num_attention_layers = ((r.num_layers.toNat / N.toNat : Nat) : Int) ∧
    r.num_mamba_layers = r.num_layers - r.num_attention_layers ∧
    r.num_moe_layers = r.num_layers ∧
    r.num_dense_layers = 0 := by
  have hgd : (c.ints "full_attention_interval").getD 0 = N := by rw [hN]; rfl
  have h' : count_interval_hybrid_params c atype mp = .ok r := by
    have hdisp : (1 : Int) < (c.ints "full_attention_interval").getD 0 := by omega
    simpa [count_params_core, hreg, hpat, hdisp] using h
  obtain ⟨hid, vocab, L, n_act, itv, gq, ln, ne, ei, sh,
    hh, hv, hl, ha, hitv, hgqa, hlin, hcnt, hint, hsh, hr⟩ :=
    count_interval_hybrid_params_inv h'
  have hNe : itv = N := by
    rw [hN] at hitv
    exact (Option.some.inj hitv).symm
  subst hNe
  subst hr
  have hLr : (0 : Int) ≤ L := by simpa [interval_result] using hL
  have hcounts := interval_accum_counts itv hN1 (2 * hid) gq ln
    (moe_layer_val mp hid ne ei sh none) (moe_layer_val mp hid ne ei sh (some n_act))
    (ne * dense_mlp_params hid ei mp.num_mlp_projections) L.toNat
  refine ⟨fun i => usesFullAttention_iff_dvd itv i, ?_, ?_, ?_, ?_⟩
  · simpa [interval_result] using hcounts.1
  · simp only [interval_result]
    rw [hcounts.2, hcounts.1]
    have hcast : ((L.toNat : Int)) = L := Int.toNat_of_nonneg hLr
    omega
  · simp [interval_result]
  · simp [interval_result]

/-- Witness for C6 at `qwen3_next_interval_cfg`: interval 4, 8 layers,
⌊8/4⌋ = 2 full-attention layers, 6 linear layers, 8 MoE layers. -/
theorem c6_interval_hybrid_layer_split_witness :
    KNOWN_ARCHITECTURES "qwen3_next" = some (AttentionType.GQA, qwen3_mapping) ∧
    count_params_core qwen3_next_interval_cfg = .ok qwen3_next_interval_expected ∧
    ((∀ i : Nat, usesFullAttention 4 i = true ↔ (4 : Int) ∣ ((i : Int) + 1)) ∧
      qwen3_next_interval_expected.num_attention_layers =
        ((qwen3_next_interval_expected.num_layers.toNat / (4 : Int).toNat : Nat) : Int) ∧
      qwen3_next_interval_expected.num_mamba_layers =
        qwen3_next_interval_expected.num_layers -
          qwen3_next_interval_expected.num_attention_layers ∧
      qwen3_next_interval_expected.num_moe_layers =
        qwen3_next_interval_expected.num_layers ∧
      qwen3_next_interval_expected.num_dense_layers = 0) :=
  ⟨rfl, rfl,
   c6_interval_hybrid_layer_split qwen3_next_interval_cfg AttentionType.GQA
     qwen3_mapping qwen3_next_interval_expected 4 rfl rfl rfl (by decide) rfl
     (by decide)⟩

/-! ## Inversion of the per-layer cost functions and nonnegativity -/

theorem nonneg_of_lookup {c : Config} {mp : MoEFieldMapping} {k : String} {v : Int}
    (hnn : NonnegCfg c mp) (hk : k ∈ relevant_int_keys mp) (h : c.ints k = some v) :
    0 ≤ v := by
  have := hnn k hk
  rw [h] at this
  exact this

theorem mla_attention_params_ok_inv {c : Config} {v : Int}
    (h : mla_attention_params c = .ok v) :
    ∃ hid n_heads kv_lora_rank q_lora_rank qk_nope qk_rope v_head,
      c.ints "hidden_size" = some hid ∧
      c.ints "num_attention_heads" = some n_heads ∧
      c.ints "kv_lora_rank" = some kv_lora_rank ∧
      c.ints "q_lora_rank" = some q_lora_rank ∧
      c.ints "qk_nope_head_dim" = some qk_nope ∧
      c.ints "qk_rope_head_dim" = some qk_rope ∧
      c.ints "v_head_dim" = some v_head ∧
      v = mla_val hid n_heads kv_lora_rank q_lora_rank qk_nope qk_rope v_head := by
  cases h1 : c.ints "hidden_size" with
  | none => simp [mla_attention_params, require, h1] at h
  | some hid =>
  cases h2 : c.ints "num_attention_heads" with
  | none => simp [mla_attention_params, require, h1, h2] at h
  | some n_heads =>
  cases h3 : c.ints "kv_lora_rank" with
  | none => simp [mla_attention_params, require, h1, h2, h3] at h
  | some kv =>
  cases h4 : c.ints "q_lora_rank" with
  | none => simp [mla_attention_params, require, h1, h2, h3, h4] at h
  | some q =>
  cases h5 : c.ints "qk_nope_head_dim" with
  | none => simp [mla_attention_params, require, h1, h2, h3, h4, h5] at h
  | some nope =>
  cases h6 : c.ints "qk_rope_head_dim" with
  | none => simp [mla_attention_params, require, h1, h2, h3, h4, h5, h6] at h
  | some rope =>
  cases h7 : c.ints "v_head_dim" with
  | none => simp [mla_attention_params, require, h1, h2, h3, h4, h5, h6, h7] at h
  | some vh =>
  have heval := mla_attention_params_eval h1 h2 h3 h4 h5 h6 h7
  rw [heval] at h
  exact ⟨hid, n_heads, kv, q, nope, rope, vh, rfl, rfl, rfl, rfl, rfl, rfl, rfl,
    ((Except.ok.injEq _ _).mp h).symm⟩

theorem gqa_attention_params_ok_inv {c : Config} {v : Int}
    (h : gqa_attention_params c = .ok v) :
    ∃ hid n_heads n_kv_heads,
      c.ints "hidden_size" = some hid ∧
      c.ints "num_attention_heads" = some n_heads ∧
      c.ints "num_key_value_heads" = some n_kv_heads ∧
      n_heads ≠ 0 ∧ v = gqa_val c hid n_heads n_kv_heads := by
  cases h1 : c.ints "hidden_size" with
  | none => simp [gqa_attention_params, require, h1] at h
  | some hid =>
  cases h2 : c.ints "num_attention_heads" with
  | none => simp [gqa_attention_params, require, h1, h2] at h
  | some n_heads =>
  cases h3 : c.ints "num_key_value_heads" with
  | none => simp [gqa_attention_params, require, h1, h2, h3] at h
  | some n_kv =>
  by_cases hnz : n_heads = 0
  · simp [gqa_attention_params, require, pyFloorDiv, h1, h2, h3, hnz] at h
  · have heval := gqa_attention_params_eval h1 h2 h3 hnz
    rw [h] at heval
    exact ⟨hid, n_heads, n_kv, rfl, rfl, rfl, hnz, (Except.ok.injEq _ _).mp heval⟩

theorem qwen3_next_linear_attn_params_ok_inv {c : Config} {v : Int}
    (h : qwen3_next_linear_attn_params c = .ok v) :
    ∃ hid n_heads lk lkd lv lvd ck,
      c.ints "hidden_size" = some hid ∧
      c.ints "num_attention_heads" = some n_heads ∧
      c.ints "linear_num_key_heads" = some lk ∧
      c.ints "linear_key_head_dim" = some lkd ∧
      c.ints "linear_num_value_heads" = some lv ∧
      c.ints "linear_value_head_dim" = some lvd ∧
      c.ints "linear_conv_kernel_dim" = some ck ∧
      n_heads ≠ 0 ∧ v = linear_attn_val c hid n_heads lk lkd lv lvd ck := by
  cases h1 : c.ints "hidden_size" with
  | none => simp [qwen3_next_linear_attn_params, require, h1] at h
  | some hid =>
  cases h2 : c.ints "num_attention_heads" with
  | none => simp [qwen3_next_linear_attn_params, require, h1, h2] at h
  | some n_heads =>
  by_cases hnz : n_heads = 0
  · simp [qwen3_next_linear_attn_params, require, pyFloorDiv, h1, h2, hnz] at h
  · cases h3 : c.ints "linear_num_key_heads" with
    | none =>
        simp [qwen3_next_linear_attn_params, require, pyFloorDiv, h1, h2, h3, hnz] at h
    | some lk =>
    cases h4 : c.ints "linear_key_head_dim" with
    | none =>
        simp [qwen3_next_linear_attn_params, require, pyFloorDiv, h1, h2, h3, h4, hnz] at h
    | some lkd =>
    cases h5 : c.ints "linear_num_value_heads" with
    | none =>
        simp [qwen3_next_linear_attn_params, require, pyFloorDiv, h1, h2, h3, h4, h5,
          hnz] at h
    | some lv =>
    cases h6 : c.ints "linear_value_head_dim" with
    | none =>
        simp [qwen3_next_linear_attn_params, require, pyFloorDiv, h1, h2, h3, h4, h5,
          h6, hnz] at h
    | some lvd =>
    cases h7 : c.ints "linear_conv_kernel_dim" with
    | none =>
        simp [qwen3_next_linear_attn_params, require, pyFloorDiv, h1, h2, h3, h4, h5,
          h6, h7, hnz] at h
    | some ck =>
    have heval := qwen3_next_linear_attn_params_eval h1 h2 h3 h4 h5 h6 h7 hnz
    rw [heval] at h
    exact ⟨hid, n_heads, lk, lkd, lv, lvd, ck, rfl, rfl, rfl, rfl, rfl, rfl, rfl, hnz,
      ((Except.ok.injEq _ _).mp h).symm⟩

theorem mamba2_layer_params_ok_inv {c : Config} {v : Int}
    (h : mamba2_layer_params c = .ok v) :
    ∃ hid num_heads head_dim ssm_state conv_kernel,
      c.ints "hidden_size" = some hid ∧
      c.ints "mamba_num_heads" = some num_heads ∧
      c.ints "mamba_head_dim" = some head_dim ∧
      c.ints "ssm_state_size" = some ssm_state ∧
      c.ints "conv_kernel" = some conv_kernel ∧
      v = mamba2_val c hid num_heads head_dim ssm_state conv_kernel := by
  cases h1 : c.ints "hidden_size" with
  | none => simp [mamba2_layer_params, require, h1] at h
  | some hid =>
  cases h2 : c.ints "mamba_num_heads" with
  | none => simp [mamba2_layer_params, require, h1, h2] at h
  | some nh =>
  cases h3 : c.ints "mamba_head_dim" with
  | none => simp [mamba2_layer_params, require, h1, h2, h3] at h
  | some hd =>
  cases h4 : c.ints "ssm_state_size" with
  | none => simp [mamba2_layer_params, require, h1, h2, h3, h4] at h
  | some ssm =>
  cases h5 : c.ints "conv_kernel" with
  | none => simp [mamba2_layer_params, require, h1, h2, h3, h4, h5] at h
  | some ck =>
  have heval := mamba2_layer_params_eval h1 h2 h3 h4 h5
  rw [heval] at h
  exact ⟨hid, nh, hd, ssm, ck, rfl, rfl, rfl, rfl, rfl,
    ((Except.ok.injEq _ _).mp h).symm⟩

theorem moe_layer_params_ok_inv {c : Config} {mp : MoEFieldMapping} {o : Option Int}
    {v : Int} (h : moe_layer_params c mp o = .ok v) :
    ∃ hid ne ei sh,
      c.ints "hidden_size" = some hid ∧
      c.ints mp.expert_count_key = some ne ∧
      c.ints mp.expert_intermediate_key = some ei ∧
      c.ints mp.shared_expert_key = some sh ∧
      v = moe_layer_val mp hid ne ei sh o := by
  cases h1 : c.ints "hidden_size" with
  | none => simp [moe_layer_params, require, h1] at h
  | some hid =>
  cases h2 : c.ints mp.expert_count_key with
  | none => simp [moe_layer_params, require, h1, h2] at h
  | some ne =>
  cases h3 : c.ints mp.expert_intermediate_key with
  | none => simp [moe_layer_params, require, h1, h2, h3] at h
  | some ei =>
  cases h4 : c.ints mp.shared_expert_key with
  | none => simp [moe_layer_params, require, h1, h2, h3, h4] at h
  | some sh =>
  have heval := moe_layer_params_eval o h1 h2 h3 h4
  rw [heval] at h
  exact ⟨hid, ne, ei, sh, rfl, rfl, rfl, rfl, ((Except.ok.injEq _ _).mp h).symm⟩

theorem dense_mlp_params_nonneg {h i p : Int} (hp : 0 ≤ p) (hh : 0 ≤ h) (hi : 0 ≤ i) :
    0 ≤ dense_mlp_params h i p := by
  unfold dense_mlp_params
  exact mul_nonneg (mul_nonneg hp hh) hi

/-- Every registry entry uses 3 (gated) or 2 (ungated) MLP projections. -/
theorem registry_projections {mt : String} {atype : AttentionType} {mp : MoEFieldMapping}
    (hreg : KNOWN_ARCHITECTURES mt = some (atype, mp)) :
    mp.num_mlp_projections = 3 ∨ mp.num_mlp_projections = 2 := by
  unfold KNOWN_ARCHITECTURES at hreg
  split_ifs at hreg <;>
    simp_all [deepseek_mapping, qwen3_mapping, minimax_mapping, nemotron_mapping]
  all_goals (obtain ⟨-, rfl⟩ := hreg; simp)

theorem gqa_head_dim_nonneg {c : Config} {mp : MoEFieldMapping} {hid n : Int}
    (hnn : NonnegCfg c mp) (hh : 0 ≤ hid) (hn : 0 ≤ n) :
    0 ≤ gqa_head_dim c hid n := by
  unfold gqa_head_dim
  cases hhd : c.ints "head_dim" with
  | none => simpa using Int.fdiv_nonneg hh hn
  | some w =>
      simpa using nonneg_of_lookup hnn (by simp [relevant_int_keys]) hhd

theorem mla_val_nonneg {hid n kv q nope rope vh : Int}
    (hh : 0 ≤ hid) (hn : 0 ≤ n) (hkv : 0 ≤ kv) (hq : 0 ≤ q) (hnope : 0 ≤ nope)
    (hrope : 0 ≤ rope) (hvh : 0 ≤ vh) : 0 ≤ mla_val hid n kv q nope rope vh := by
  unfold mla_val
  have t1 := mul_nonneg hh hq
  have t3 := mul_nonneg (mul_nonneg hq hn) (add_nonneg hnope hrope)
  have t4 := mul_nonneg hh (add_nonneg hkv hrope)
  have t6 := mul_nonneg (mul_nonneg hkv hn) (add_nonneg hnope hvh)
  have t7 := mul_nonneg (mul_nonneg hn hvh) hh
  linarith

theorem gqa_val_nonneg {c : Config} {mp : MoEFieldMapping} {hid n kv : Int}
    (hnn : NonnegCfg c mp) (hh : 0 ≤ hid) (hn : 0 ≤ n) (hkv : 0 ≤ kv) :
    0 ≤ gqa_val c hid n kv := by
  have hd := gqa_head_dim_nonneg hnn hh hn
  unfold gqa_val
  have t1 := mul_nonneg hh (mul_nonneg hn hd)
  have t2 := mul_nonneg hh (mul_nonneg hkv hd)
  have t4 := mul_nonneg (mul_nonneg hn hd) hh
  linarith

theorem linear_attn_val_nonneg {c : Config} {mp : MoEFieldMapping}
    {hid n lk lkd lv lvd ck : Int} (hnn : NonnegCfg c mp)
    (hh : 0 ≤ hid) (hn : 0 ≤ n) (hlk : 0 ≤ lk) (hlkd : 0 ≤ lkd) (hlv : 0 ≤ lv)
    (hlvd : 0 ≤ lvd) (hck : 0 ≤ ck) : 0 ≤ linear_attn_val c hid n lk lkd lv lvd ck := by
  have hd := gqa_head_dim_nonneg hnn hh hn
  unfold linear_attn_val
  dsimp only
  have hq := mul_nonneg hn hd
  have hk := mul_nonneg hlk hlkd
  have hv := mul_nonneg hlv hlvd
  have t1 := mul_nonneg hh (by linarith : (0:Int) ≤ n * gqa_head_dim c hid n + lk * lkd +
    lv * lvd + n * gqa_head_dim c hid n)
  have t2 := mul_nonneg hh (by linarith : (0:Int) ≤ 2 * lk)
  have t3 := mul_nonneg (by linarith : (0:Int) ≤ lv * lvd + lk * lkd) hck
  have t4 := mul_nonneg hv hh
  linarith

theorem mamba2_val_nonneg {c : Config} {mp : MoEFieldMapping}
    {hid nh hd ssm ck : Int} (hnn : NonnegCfg c mp)
    (hh : 0 ≤ hid) (hn : 0 ≤ nh) (hhd : 0 ≤ hd) (hssm : 0 ≤ ssm) (hck : 0 ≤ ck) :
    0 ≤ mamba2_val c hid nh hd ssm ck := by
  have hg : 0 ≤ (c.ints "n_group").getD 1 := by
    cases hx : c.ints "n_group" with
    | none => simp
    | some w => simpa using nonneg_of_lookup hnn (by simp [relevant_int_keys]) hx
  unfold mamba2_val
  dsimp only
  have hdi := mul_nonneg hn hhd
  have t1 := mul_nonneg hh (by positivity :
    (0:Int) ≤ 2 * (nh * hd) + 2 * (c.ints "n_group").getD 1 * ssm + nh)
  have t2 := mul_nonneg hdi hck
  have t7 := mul_nonneg hdi hh
  linarith

theorem dsa_val_nonneg {c : Config} {mp : MoEFieldMapping} {hid : Int}
    (hnn : NonnegCfg c mp) (hh : 0 ≤ hid) : 0 ≤ dsa_val c hid := by
  unfold dsa_val
  cases h1 : c.ints "index_n_heads" with
  | none => simp
  | some a =>
      cases h2 : c.ints "index_head_dim" with
      | none => simp
      | some b =>
          have ha := nonneg_of_lookup hnn (k := "index_n_heads")
            (by simp [relevant_int_keys]) h1
          have hb := nonneg_of_lookup hnn (k := "index_head_dim")
            (by simp [relevant_int_keys]) h2
          simp only
          have t1 := mul_nonneg hh (mul_nonneg ha hb)
          have t3 := mul_nonneg (mul_nonneg ha hb) ha
          linarith

theorem moe_shared_val_nonneg {mp : MoEFieldMapping} {hid ei sh : Int}
    (hp : 0 ≤ mp.num_mlp_projections) (hh : 0 ≤ hid) (hei : 0 ≤ ei) (hsh : 0 ≤ sh) :
    0 ≤ moe_shared_val mp hid ei sh := by
  unfold moe_shared_val
  split_ifs with h1 h2
  · exact mul_nonneg hsh (dense_mlp_params_nonneg hp hh hei)
  · exact dense_mlp_params_nonneg hp hh (by omega)
  · exact le_refl 0

theorem moe_layer_val_nonneg {mp : MoEFieldMapping} {hid ne ei sh : Int} (o : Option Int)
    (hp : 0 ≤ mp.num_mlp_projections) (hh : 0 ≤ hid) (hne : 0 ≤ ne) (hei : 0 ≤ ei)
    (hsh : 0 ≤ sh) (ho : 0 ≤ o.getD ne) : 0 ≤ moe_layer_val mp hid ne ei sh o := by
  unfold moe_layer_val
  have t1 := mul_nonneg ho (dense_mlp_params_nonneg hp hh hei)
  have t2 := mul_nonneg hh hne
  have t3 := moe_shared_val_nonneg hp hh hei hsh
  linarith

theorem moe_layer_val_active_le {mp : MoEFieldMapping} {hid ne ei sh act : Int}
    (hp : 0 ≤ mp.num_mlp_projections) (hh : 0 ≤ hid) (hei : 0 ≤ ei) (hle : act ≤ ne) :
    moe_layer_val mp hid ne ei sh (some act) ≤ moe_layer_val mp hid ne ei sh none := by
  unfold moe_layer_val
  simp only [Option.getD_some, Option.getD_none]
  have := mul_nonneg (by omega : (0:Int) ≤ ne - act) (dense_mlp_params_nonneg hp hh hei)
  nlinarith [dense_mlp_params_nonneg hp hh hei]

theorem routed_le_moe_layer_val {mp : MoEFieldMapping} {hid ne ei sh : Int}
    (hp : 0 ≤ mp.num_mlp_projections) (hh : 0 ≤ hid) (hne : 0 ≤ ne) (hei : 0 ≤ ei)
    (hsh : 0 ≤ sh) :
    ne * dense_mlp_params hid ei mp.num_mlp_projections ≤
      moe_layer_val mp hid ne ei sh none := by
  unfold moe_layer_val
  simp only [Option.getD_none]
  have t2 := mul_nonneg hh hne
  have t3 := moe_shared_val_nonneg hp hh hei hsh
  linarith

/-! ## The pattern loop: step characterization, counters, invariants -/

theorem hybrid_step_ok_inv {c : Config} {atype : AttentionType} {mp : MoEFieldMapping}
    {hid act : Int} {acc acc' : HybridAcc} {ch : Char}
    (h : hybrid_step c atype mp hid act acc ch = .ok acc') :
    (∃ m, ch = 'M' ∧ mamba2_layer_params c = .ok m ∧
      acc' = { acc with
        total_layer_params := acc.total_layer_params + hid + m
        active_layer_params := acc.active_layer_params + hid + m
        num_mamba := acc.num_mamba + 1 }) ∨
    (∃ a, ch ≠ 'M' ∧ ch = '*' ∧ attention_params atype c = .ok a ∧
      acc' = { acc with
        total_layer_params := acc.total_layer_params + hid + a
        active_layer_params := acc.active_layer_params + hid + a
        num_attn := acc.num_attn + 1 }) ∨
    (∃ im, ch ≠ 'M' ∧ ch ≠ '*' ∧ ch = '-' ∧ c.ints "intermediate_size" = some im ∧
      acc' = { acc with
        total_layer_params := acc.total_layer_params + hid +
          dense_mlp_params hid im mp.num_mlp_projections
        active_layer_params := acc.active_layer_params + hid +
          dense_mlp_params hid im mp.num_mlp_projections
        num_dense_mlp := acc.num_dense_mlp + 1 }) ∨
    (∃ hid2 ne ei sh, ch ≠ 'M' ∧ ch ≠ '*' ∧ ch ≠ '-' ∧
      c.ints "hidden_size" = some hid2 ∧
      c.ints mp.expert_count_key = some ne ∧
      c.ints mp.expert_intermediate_key = some ei ∧
      c.ints mp.shared_expert_key = some sh ∧
      acc' = { acc with
        total_layer_params := acc.total_layer_params + hid +
          moe_layer_val mp hid2 ne ei sh none
        active_layer_params := acc.active_layer_params + hid +
          moe_layer_val mp hid2 ne ei sh (some act)
        routed_expert_params := acc.routed_expert_params +
          ne * dense_mlp_params hid ei mp.num_mlp_projections
        num_moe := acc.num_moe + 1 }) := by
  unfold hybrid_step at h
  by_cases hM : ch = 'M'
  · rw [if_pos hM] at h
    cases hm : mamba2_layer_params c with
    | error e => rw [hm] at h; simp [andThen] at h
    | ok m =>
        rw [hm] at h
        simp only [andThen_ok] at h
        exact Or.inl ⟨m, hM, rfl, ((Except.ok.injEq _ _).mp h).symm⟩
  · rw [if_neg hM] at h
    by_cases hS : ch = '*'
    · rw [if_pos hS] at h
      cases ha : attention_params atype c with
      | error e => rw [ha] at h; simp [andThen] at h
      | ok a =>
          rw [ha] at h
          simp only [andThen_ok] at h
          exact Or.inr (Or.inl ⟨a, hM, hS, rfl, ((Except.ok.injEq _ _).mp h).symm⟩)
    · rw [if_neg hS] at h
      by_cases hD : ch = '-'
      · rw [if_pos hD] at h
        cases hi : c.ints "intermediate_size" with
        | none => rw [require_eq_none hi] at h; simp [andThen] at h
        | some im =>
            rw [require_eq_some hi] at h
            simp only [andThen_ok] at h
            exact Or.inr (Or.inr (Or.inl ⟨im, hM, hS, hD, rfl,
              ((Except.ok.injEq _ _).mp h).symm⟩))
      · rw [if_neg hD] at h
        cases hm1 : moe_layer_params c mp none with
        | error e => rw [hm1] at h; simp [andThen] at h
        | ok mt =>
            obtain ⟨hid2, ne, ei, sh, hh2, hcnt, hint, hsh, rfl⟩ :=
              moe_layer_params_ok_inv hm1
            have hm2 := moe_layer_params_eval (some act)
              hh2 hcnt hint hsh
            rw [hm1, hm2, require_eq_some hcnt, require_eq_some hint] at h
            simp only [andThen_ok] at h
            exact Or.inr (Or.inr (Or.inr ⟨hid2, ne, ei, sh, hM, hS, hD, hh2, hcnt, hint,
              hsh, ((Except.ok.injEq _ _).mp h).symm⟩))

theorem hybrid_step_counters {c : Config} {atype : AttentionType} {mp : MoEFieldMapping}
    {hid act : Int} {acc acc' : HybridAcc} {ch : Char}
    (h : hybrid_step c atype mp hid act acc ch = .ok acc') :
    acc'.num_mamba + acc'.num_attn + acc'.num_moe + acc'.num_dense_mlp =
      acc.num_mamba + acc.num_attn + acc.num_moe + acc.num_dense_mlp + 1 ∧
    acc.num_mamba ≤ acc'.num_mamba ∧ acc.num_attn ≤ acc'.num_attn ∧
    acc.num_moe ≤ acc'.num_moe ∧ acc.num_dense_mlp ≤ acc'.num_dense_mlp := by
  rcases hybrid_step_ok_inv h with ⟨m, _, _, rfl⟩ | ⟨a, _, _, _, rfl⟩ |
    ⟨im, _, _, _, _, rfl⟩ | ⟨hid2, ne, ei, sh, _, _, _, _, _, _, _, rfl⟩ <;>
    simp <;> omega

theorem hybrid_loop_counters {c : Config} {atype : AttentionType} {mp : MoEFieldMapping}
    {hid act : Int} (p : List Char) (acc acc' : HybridAcc)
    (h : hybrid_loop c atype mp hid act acc p = .ok acc') :
    acc'.num_mamba + acc'.num_attn + acc'.num_moe + acc'.num_dense_mlp =
      acc.num_mamba + acc.num_attn + acc.num_moe + acc.num_dense_mlp + p.length ∧
    acc.num_mamba ≤ acc'.num_mamba ∧ acc.num_attn ≤ acc'.num_attn ∧
    acc.num_moe ≤ acc'.num_moe ∧ acc.num_dense_mlp ≤ acc'.num_dense_mlp := by
  induction p generalizing acc with
  | nil =>
      obtain rfl : acc = acc' := by
        simpa [hybrid_loop] using h
      simp
  | cons ch rest ih =>
      unfold hybrid_loop at h
      cases hs : hybrid_step c atype mp hid act acc ch with
      | error e => rw [hs] at h; simp [andThen] at h
      | ok acc1 =>
          rw [hs] at h
          simp only [andThen_ok] at h
          have h1 := hybrid_step_counters hs
          have h2 := ih acc1 h
          simp only [List.length_cons]
          omega

/-! ## Claim C10: the layer-kind counts partition the layer count -/

/-- Every interval-loop iteration counts exactly one layer, full or linear. -/
theorem interval_accum_counter_sum (itv norms g l mt ma rp : Int) (n : Nat) :
    (interval_accum itv norms g l mt ma rp n).num_full_attn +
      (interval_accum itv norms g l mt ma rp n).num_linear_attn = (n : Int) := by
  induction n with
  | zero => simp [interval_accum]
  | succ n ih =>
      by_cases hu : usesFullAttention itv n = true <;>
        simp only [interval_accum, hu, if_true, if_false, Bool.false_eq_true] <;>
        push_cast <;> omega

/-- **C10**: the layer-kind counts in a successful result partition the
layer count: on the pattern-hybrid path
`mamba + attention + moe + dense = layers`; on the interval-hybrid path
(with nonnegative layer count) `mamba + attention = layers`,
`moe = layers` and `dense = 0`; on the uniform path `moe + dense = layers`
with `mamba = attention = 0`. -/
theorem c10_layer_partition (c : Config) (atype : AttentionType)
    (mp : MoEFieldMapping) (r : ParamCountResult)
    (hreg : KNOWN_ARCHITECTURES c.model_type = some (atype, mp))
    (h : count_params_core c = .ok r) :
    (c.hybrid_override_pattern.isSome →
      r.num_mamba_layers + r.num_attention_layers + r.num_moe_layers +
        r.num_dense_layers = r.num_layers) ∧
    (c.hybrid_override_pattern = none →
      (c.ints "full_attention_interval").getD 0 > 1 → 0 ≤ r.num_layers →
      r.num_mamba_layers + r.num_attention_layers = r.num_layers ∧
      r.num_moe_layers = r.num_layers ∧ r.num_dense_layers = 0) ∧
    (c.hybrid_override_pattern = none →
      ¬((c.ints "full_attention_interval").getD 0 > 1) →
      r.num_moe_layers + r.num_dense_layers = r.num_layers ∧
      r.num_mamba_layers = 0 ∧ r.num_attention_layers = 0) := by
  refine ⟨?_, ?_, ?_⟩
  · intro hp
    have h' : count_hybrid_params c atype mp = .ok r := by
      simpa [count_params_core, hreg, hp] using h
    obtain ⟨hid, vocab, L, act, acc, hh, hv, hl, ha, hlen, hloop, hr⟩ :=
      count_hybrid_params_inv h'
    subst hr
    have hc := hybrid_loop_counters _ _ _ hloop
    simp only [hybrid_result]
    simp only [HybridAcc] at hc
    omega
  · intro hp hdisp hL
    have h' : count_interval_hybrid_params c atype mp = .ok r := by
      simpa [count_params_core, hreg, hp, hdisp] using h
    obtain ⟨hid, vocab, L, act, itv, gq, ln, ne, ei, sh,
      hh, hv, hl, ha, hitv, hgqa, hlin, hcnt, hint, hsh, hr⟩ :=
      count_interval_hybrid_params_inv h'
    subst hr
    have hLr : (0 : Int) ≤ L := by simpa [interval_result] using hL
    have hsum := interval_accum_counter_sum itv (2 * hid) gq ln
      (moe_layer_val mp hid ne ei sh none) (moe_layer_val mp hid ne ei sh (some act))
      (ne * dense_mlp_params hid ei mp.num_mlp_projections) L.toNat
    have hcast : ((L.toNat : Int)) = L := Int.toNat_of_nonneg hLr
    refine ⟨?_, by simp [interval_result], by simp [interval_result]⟩
    simp only [interval_result]
    omega
  · intro hp hdisp
    have h' : count_uniform_params c atype mp = .ok r := by
      simpa [count_params_core, hreg, hp, hdisp] using h
    obtain ⟨hid, vocab, L, im, act, dl, ap, ne, ei, sh,
      hh, hv, hl, hi, ha, hdl, hat, hcnt, hint, hsh, hr⟩ :=
      count_uniform_params_inv h'
    subst hr
    refine ⟨?_, by simp [uniform_result], by simp [uniform_result]⟩
    simp only [uniform_result]
    omega

/-- Witness for C10 on all three topologies: the `nemotron_h` pattern-hybrid
config (2+1+2+1 = 6), the `qwen3_next` interval config (6+2 = 8 = moe) and
the `nemotron_h` uniform config (2+0 = 2). -/
theorem c10_layer_partition_witness :
    (count_params_core nemotron_hybrid_cfg = .ok nemotron_hybrid_expected ∧
      (nemotron_hybrid_cfg.hybrid_override_pattern.isSome →
        nemotron_hybrid_expected.num_mamba_layers +
          nemotron_hybrid_expected.num_attention_layers +
          nemotron_hybrid_expected.num_moe_layers +
          nemotron_hybrid_expected.num_dense_layers =
          nemotron_hybrid_expected.num_layers)) ∧
    (count_params_core qwen3_next_interval_cfg = .ok qwen3_next_interval_expected ∧
      (qwen3_next_interval_cfg.hybrid_override_pattern = none →
        (qwen3_next_interval_cfg.ints "full_attention_interval").getD 0 > 1 →
        0 ≤ qwen3_next_interval_expected.num_layers →
        qwen3_next_interval_expected.num_mamba_layers +
          qwen3_next_interval_expected.num_attention_layers =
          qwen3_next_interval_expected.num_layers ∧
        qwen3_next_interval_expected.num_moe_layers =
          qwen3_next_interval_expected.num_layers ∧
        qwen3_next_interval_expected.num_dense_layers = 0)) ∧
    (count_params_core nemotron_uniform_cfg = .ok nemotron_uniform_expected ∧
      (nemotron_uniform_cfg.hybrid_override_pattern = none →
        ¬((nemotron_uniform_cfg.ints "full_attention_interval").getD 0 > 1) →
        nemotron_uniform_expected.num_moe_layers +
          nemotron_uniform_expected.num_dense_layers =
          nemotron_uniform_expected.num_layers ∧
        nemotron_uniform_expected.num_mamba_layers = 0 ∧
        nemotron_uniform_expected.num_attention_layers = 0)) :=
  ⟨⟨rfl, (c10_layer_partition nemotron_hybrid_cfg AttentionType.GQA nemotron_mapping
      nemotron_hybrid_expected rfl rfl).1⟩,
   ⟨rfl, (c10_layer_partition qwen3_next_interval_cfg AttentionType.GQA qwen3_mapping
      qwen3_next_interval_expected rfl rfl).2.1⟩,
   ⟨rfl, (c10_layer_partition nemotron_uniform_cfg AttentionType.GQA nemotron_mapping
      nemotron_uniform_expected rfl rfl).2.2⟩⟩

/-! ## Claim C9: the output head under tied and untied embeddings -/

theorem count_params_core_eq_hybrid {c : Config} {atype : AttentionType}
    {mp : MoEFieldMapping} (hreg : KNOWN_ARCHITECTURES c.model_type = some (atype, mp))
    (hp : c.hybrid_override_pattern.isSome) :
    count_params_core c = count_hybrid_params c atype mp := by
  simp [count_params_core, hreg, hp]

theorem count_params_core_eq_interval {c : Config} {atype : AttentionType}
    {mp : MoEFieldMapping} (hreg : KNOWN_ARCHITECTURES c.model_type = some (atype, mp))
    (hp : c.hybrid_override_pattern = none)
    (hi : (c.ints "full_attention_interval").getD 0 > 1) :
    count_params_core c = count_interval_hybrid_params c atype mp := by
  simp [count_params_core, hreg, hp, hi]

theorem count_params_core_eq_uniform {c : Config} {atype : AttentionType}
    {mp : MoEFieldMapping} (hreg : KNOWN_ARCHITECTURES c.model_type = some (atype, mp))
    (hp : c.hybrid_override_pattern = none)
    (hi : ¬((c.ints "full_attention_interval").getD 0 > 1)) :
    count_params_core c = count_uniform_params c atype mp := by
  simp [count_params_core, hreg, hp, hi]

theorem set_tie_ints (c : Config) (b : Bool) : (set_tie c b).ints = c.ints := rfl

theorem set_tie_model_type (c : Config) (b : Bool) :
    (set_tie c b).model_type = c.model_type := rfl

theorem set_tie_pattern (c : Config) (b : Bool) :
    (set_tie c b).hybrid_override_pattern = c.hybrid_override_pattern := rfl

theorem set_tie_tie (c : Config) (b : Bool) :
    (set_tie c b).tie_word_embeddings = b := rfl

theorem dsa_val_set_tie (c : Config) (b : Bool) (hid : Int) :
    dsa_val (set_tie c b) hid = dsa_val c hid := rfl

theorem mtp_count_of_set_tie (c : Config) (b : Bool) (mp : MoEFieldMapping) :
    mtp_count_of (set_tie c b) mp = mtp_count_of c mp := rfl

theorem lm_head_val_set_tie (c : Config) (b : Bool) (vocab hid : Int) :
    lm_head_val (set_tie c b) vocab hid = if b then 0 else vocab * hid := rfl

theorem hybrid_loop_set_tie (c : Config) (b : Bool) (atype : AttentionType)
    (mp : MoEFieldMapping) (hid act : Int) (p : List Char) (acc : HybridAcc) :
    hybrid_loop (set_tie c b) atype mp hid act acc p =
      hybrid_loop c atype mp hid act acc p := by
  induction p generalizing acc with
  | nil => rfl
  | cons ch rest ih =>
      simp only [hybrid_loop]
      have hstep : hybrid_step (set_tie c b) atype mp hid act acc ch =
          hybrid_step c atype mp hid act acc ch := rfl
      rw [hstep]
      cases hybrid_step c atype mp hid act acc ch with
      | error e => rfl
      | ok acc1 => simpa only [andThen_ok] using ih acc1

/-- **C9**: toggling `tie_word_embeddings` changes exactly the output head:
with tied embeddings the head contributes zero, untied it contributes
exactly `vocab_size × hidden_size` (the embedding cost) to both the total
and active counts — on whichever of the three topology paths the
configuration takes. -/
theorem c9_tied_embeddings_output_head (c : Config) (atype : AttentionType)
    (mp : MoEFieldMapping) (r : ParamCountResult) (vocab hid : Int)
    (hreg : KNOWN_ARCHITECTURES c.model_type = some (atype, mp))
    (hv : c.ints "vocab_size" = some vocab)
    (hh : c.ints "hidden_size" = some hid)
    (h : count_params_core c = .ok r) :
    ∃ rt rf : ParamCountResult,
      count_params_core (set_tie c true) = .ok rt ∧
      count_params_core (set_tie c false) = .ok rf ∧
      rf.total_params = rt.total_params + vocab * hid ∧
      rf.active_params = rt.active_params + vocab * hid ∧
      (c.tie_word_embeddings = true → r = rt) ∧
      (c.tie_word_embeddings = false → r = rf) := by
  by_cases hp : c.hybrid_override_pattern.isSome
  · have h' : count_hybrid_params c atype mp = .ok r := by
      rw [← count_params_core_eq_hybrid hreg hp]; exact h
    obtain ⟨hid', vocab', L, act, acc, hh', hv', hl, ha, hlen, hloop, hr⟩ :=
      count_hybrid_params_inv h'
    obtain rfl : hid = hid' := by rw [hh] at hh'; exact Option.some.inj hh'
    obtain rfl : vocab = vocab' := by rw [hv] at hv'; exact Option.some.inj hv'
    refine ⟨hybrid_result (set_tie c true) hid vocab L acc,
      hybrid_result (set_tie c false) hid vocab L acc, ?_, ?_, ?_, ?_, ?_, ?_⟩
    · rw [count_params_core_eq_hybrid (c := set_tie c true) hreg hp]
      exact count_hybrid_params_eval hh' hv' hl ha hlen
        ((hybrid_loop_set_tie c true atype mp hid act _ {}).trans hloop)
    · rw [count_params_core_eq_hybrid (c := set_tie c false) hreg hp]
      exact count_hybrid_params_eval hh' hv' hl ha hlen
        ((hybrid_loop_set_tie c false atype mp hid act _ {}).trans hloop)
    · simp [hybrid_result, lm_head_val_set_tie]; ring
    · simp [hybrid_result, lm_head_val_set_tie]; ring
    · intro ht
      rw [hr]
      simp [hybrid_result, lm_head_val, set_tie, ht]
    · intro ht
      rw [hr]
      simp [hybrid_result, lm_head_val, set_tie, ht]
  · have hp' : c.hybrid_override_pattern = none := by
      cases hx : c.hybrid_override_pattern
      · rfl
      · rw [hx] at hp; simp at hp
    by_cases hi : (c.ints "full_attention_interval").getD 0 > 1
    · have h' : count_interval_hybrid_params c atype mp = .ok r := by
        rw [← count_params_core_eq_interval hreg hp' hi]; exact h
      obtain ⟨hid', vocab', L, act, itv, gq, ln, ne, ei, sh,
        hh', hv', hl, ha, hitv, hgqa, hlin, hcnt, hint, hsh, hr⟩ :=
        count_interval_hybrid_params_inv h'
      obtain rfl : hid = hid' := by rw [hh] at hh'; exact Option.some.inj hh'
      obtain rfl : vocab = vocab' := by rw [hv] at hv'; exact Option.some.inj hv'
      refine ⟨_, _,
        (count_params_core_eq_interval (c := set_tie c true) hreg hp' hi).trans
          (count_interval_hybrid_params_eval
            hh' hv' hl ha hitv hgqa hlin hcnt hint hsh),
        (count_params_core_eq_interval (c := set_tie c false) hreg hp' hi).trans
          (count_interval_hybrid_params_eval
            hh' hv' hl ha hitv hgqa hlin hcnt hint hsh), ?_, ?_, ?_, ?_⟩
      · simp [interval_result, lm_head_val_set_tie]; ring
      · simp [interval_result, lm_head_val_set_tie]; ring
      · intro ht
        rw [hr]
        simp [interval_result, lm_head_val, set_tie, ht]
      · intro ht
        rw [hr]
        simp [interval_result, lm_head_val, set_tie, ht]
    · have h' : count_uniform_params c atype mp = .ok r := by
        rw [← count_params_core_eq_uniform hreg hp' hi]; exact h
      obtain ⟨hid', vocab', L, im, act, dl, ap, ne, ei, sh,
        hh', hv', hl, hin, ha, hdl, hat, hcnt, hint, hsh, hr⟩ :=
        count_uniform_params_inv h'
      obtain rfl : hid = hid' := by rw [hh] at hh'; exact Option.some.inj hh'
      obtain rfl : vocab = vocab' := by rw [hv] at hv'; exact Option.some.inj hv'
      have hdlT : dense_layers_req (set_tie c true) mp = .ok dl := hdl
      have hdlF : dense_layers_req (set_tie c false) mp = .ok dl := hdl
      have hatT : attention_params atype (set_tie c true) = .ok ap := hat
      have hatF : attention_params atype (set_tie c false) = .ok ap := hat
      refine ⟨_, _,
        (count_params_core_eq_uniform (c := set_tie c true) hreg hp' hi).trans
          (count_uniform_params_eval hh' hv' hl hin ha hdlT hatT hcnt hint hsh),
        (count_params_core_eq_uniform (c := set_tie c false) hreg hp' hi).trans
          (count_uniform_params_eval hh' hv' hl hin ha hdlF hatF hcnt hint hsh),
        ?_, ?_, ?_, ?_⟩
      · simp only [uniform_result, lm_head_val_set_tie, dsa_val_set_tie,
          mtp_count_of_set_tie]
        split_ifs <;> first | contradiction | ring
      · simp only [uniform_result, lm_head_val_set_tie, dsa_val_set_tie,
          mtp_count_of_set_tie]
        split_ifs <;> first | contradiction | ring
      · intro ht
        rw [hr]
        simp only [uniform_result, lm_head_val, dsa_val_set_tie, mtp_count_of_set_tie,
          set_tie_model_type, set_tie_tie, ht]
      · intro ht
        rw [hr]
        simp only [uniform_result, lm_head_val, dsa_val_set_tie, mtp_count_of_set_tie,
          set_tie_model_type, set_tie_tie, ht]

/-- Witness for C9 at the DeepSeek-V3.2 test configuration: untied vs tied
results differ by `129280 × 7168 = 926679040` in both counts. -/
theorem c9_tied_embeddings_output_head_witness :
    count_params_core deepseek_v32_cfg = .ok deepseek_v32_expected ∧
    count_params_core (set_tie deepseek_v32_cfg true) = .ok deepseek_v32_tied_expected ∧
    deepseek_v32_expected.total_params =
      deepseek_v32_tied_expected.total_params + 129280 * 7168 ∧
    (∃ rt rf : ParamCountResult,
      count_params_core (set_tie deepseek_v32_cfg true) = .ok rt ∧
      count_params_core (set_tie deepseek_v32_cfg false) = .ok rf ∧
      rf.total_params = rt.total_params + 129280 * 7168 ∧
      rf.active_params = rt.active_params + 129280 * 7168 ∧
      (deepseek_v32_cfg.tie_word_embeddings = true → deepseek_v32_expected = rt) ∧
      (deepseek_v32_cfg.tie_word_embeddings = false → deepseek_v32_expected = rf)) :=
  ⟨rfl, rfl, by decide,
   c9_tied_embeddings_output_head deepseek_v32_cfg AttentionType.MLA deepseek_mapping
     deepseek_v32_expected 129280 7168 rfl rfl rfl rfl⟩

/-! ## Claim C1: supporting invariants -/

theorem lm_head_val_nonneg {c : Config} {vocab hid : Int} (hv : 0 ≤ vocab)
    (hh : 0 ≤ hid) : 0 ≤ lm_head_val c vocab hid := by
  unfold lm_head_val
  split_ifs
  · exact le_refl 0
  · exact mul_nonneg hv hh

theorem dense_layers_req_nonneg {c : Config} {mp : MoEFieldMapping} {dl : Int}
    (hnn : NonnegCfg c mp) (h : dense_layers_req c mp = .ok dl) : 0 ≤ dl := by
  cases hk : mp.dense_layers_key with
  | none =>
      simp only [dense_layers_req, hk, Except.ok.injEq] at h
      omega
  | some k =>
      cases hv : c.ints k with
      | none => simp [dense_layers_req, hk, require, hv] at h
      | some v =>
          simp only [dense_layers_req, hk, require_eq_some hv, Except.ok.injEq] at h
          subst h
          exact nonneg_of_lookup hnn (by simp [relevant_int_keys, hk]) hv

theorem dense_layers_req_le {c : Config} {mp : MoEFieldMapping} {dl L : Int}
    (hsd : SaneDenseSplit c mp) (h : dense_layers_req c mp = .ok dl)
    (hl : c.ints "num_hidden_layers" = some L) : dl ≤ L := by
  unfold SaneDenseSplit at hsd
  rw [hl] at hsd
  cases hk : mp.dense_layers_key with
  | none =>
      simp only [dense_layers_req, hk, Except.ok.injEq] at h
      simp only [hk, Option.getD_some] at hsd
      omega
  | some k =>
      cases hv : c.ints k with
      | none => simp [dense_layers_req, hk, require, hv] at h
      | some v =>
          simp only [dense_layers_req, hk, require_eq_some hv, Except.ok.injEq] at h
          subst h
          simp only [hk, hv, Option.getD_some] at hsd
          exact hsd

theorem sane_experts_le {c : Config} {mp : MoEFieldMapping} {act ne : Int}
    (hse : SaneExperts c mp) (ha : c.ints "num_experts_per_tok" = some act)
    (hcnt : c.ints mp.expert_count_key = some ne) : act ≤ ne := by
  unfold SaneExperts at hse
  rw [ha, hcnt] at hse
  simpa using hse

theorem attention_params_ok_nonneg {c : Config} {mp : MoEFieldMapping}
    {atype : AttentionType} {ap : Int} (hnn : NonnegCfg c mp)
    (h : attention_params atype c = .ok ap) : 0 ≤ ap := by
  cases atype with
  | MLA =>
      obtain ⟨hid, n, kv, q, nope, rope, vh, h1, h2, h3, h4, h5, h6, h7, rfl⟩ :=
        mla_attention_params_ok_inv h
      exact mla_val_nonneg
        (nonneg_of_lookup hnn (by simp [relevant_int_keys]) h1)
        (nonneg_of_lookup hnn (by simp [relevant_int_keys]) h2)
        (nonneg_of_lookup hnn (by simp [relevant_int_keys]) h3)
        (nonneg_of_lookup hnn (by simp [relevant_int_keys]) h4)
        (nonneg_of_lookup hnn (by simp [relevant_int_keys]) h5)
        (nonneg_of_lookup hnn (by simp [relevant_int_keys]) h6)
        (nonneg_of_lookup hnn (by simp [relevant_int_keys]) h7)
  | GQA =>
      obtain ⟨hid, n, kvh, h1, h2, h3, hnz, rfl⟩ := gqa_attention_params_ok_inv h
      exact gqa_val_nonneg hnn
        (nonneg_of_lookup hnn (by simp [relevant_int_keys]) h1)
        (nonneg_of_lookup hnn (by simp [relevant_int_keys]) h2)
        (nonneg_of_lookup hnn (by simp [relevant_int_keys]) h3)

theorem mamba2_layer_params_ok_nonneg {c : Config} {mp : MoEFieldMapping} {m : Int}
    (hnn : NonnegCfg c mp) (h : mamba2_layer_params c = .ok m) : 0 ≤ m := by
  obtain ⟨hid, nh, hd, ssm, ck, h1, h2, h3, h4, h5, rfl⟩ :=
    mamba2_layer_params_ok_inv h
  exact mamba2_val_nonneg hnn
    (nonneg_of_lookup hnn (by simp [relevant_int_keys]) h1)
    (nonneg_of_lookup hnn (by simp [relevant_int_keys]) h2)
    (nonneg_of_lookup hnn (by simp [relevant_int_keys]) h3)
    (nonneg_of_lookup hnn (by simp [relevant_int_keys]) h4)
    (nonneg_of_lookup hnn (by simp [relevant_int_keys]) h5)

theorem qwen3_next_linear_attn_params_ok_nonneg {c : Config} {mp : MoEFieldMapping}
    {v : Int} (hnn : NonnegCfg c mp) (h : qwen3_next_linear_attn_params c = .ok v) :
    0 ≤ v := by
  obtain ⟨hid, n, lk, lkd, lv, lvd, ck, h1, h2, h3, h4, h5, h6, h7, hnz, rfl⟩ :=
    qwen3_next_linear_attn_params_ok_inv h
  exact linear_attn_val_nonneg hnn
    (nonneg_of_lookup hnn (by simp [relevant_int_keys]) h1)
    (nonneg_of_lookup hnn (by simp [relevant_int_keys]) h2)
    (nonneg_of_lookup hnn (by simp [relevant_int_keys]) h3)
    (nonneg_of_lookup hnn (by simp [relevant_int_keys]) h4)
    (nonneg_of_lookup hnn (by simp [relevant_int_keys]) h5)
    (nonneg_of_lookup hnn (by simp [relevant_int_keys]) h6)
    (nonneg_of_lookup hnn (by simp [relevant_int_keys]) h7)

theorem hybrid_step_preserves {c : Config} {atype : AttentionType}
    {mp : MoEFieldMapping} {hid act : Int} {acc acc' : HybridAcc} {ch : Char}
    (hp0 : 0 ≤ mp.num_mlp_projections) (hnn : NonnegCfg c mp)
    (hh : c.ints "hidden_size" = some hid)
    (ha : c.ints "num_experts_per_tok" = some act)
    (hse : SaneExperts c mp)
    (h : hybrid_step c atype mp hid act acc ch = .ok acc')
    (hinv : HAccInv acc) : HAccInv acc' := by
  have hhid0 : 0 ≤ hid := nonneg_of_lookup hnn (by simp [relevant_int_keys]) hh
  obtain ⟨i1, i2, i3, i4, i5, i6, i7, i8⟩ := hinv
  rcases hybrid_step_ok_inv h with ⟨m, _, hm, rfl⟩ | ⟨a, _, _, hat, rfl⟩ |
    ⟨im, _, _, _, him, rfl⟩ | ⟨hid2, ne, ei, sh, _, _, _, hh2, hcnt, hint, hsh, rfl⟩
  · have hm0 := mamba2_layer_params_ok_nonneg hnn hm
    exact ⟨by simp; omega, by simp; omega, by simp; omega, by simp; omega,
      by simp; linarith, by simp; linarith, by simp; linarith, by simp; linarith⟩
  · have ha0 := attention_params_ok_nonneg hnn hat
    exact ⟨by simp; omega, by simp; omega, by simp; omega, by simp; omega,
      by simp; linarith, by simp; linarith, by simp; linarith, by simp; linarith⟩
  · have him0 := nonneg_of_lookup hnn (k := "intermediate_size")
      (by simp [relevant_int_keys]) him
    have hd0 := dense_mlp_params_nonneg hp0 hhid0 him0
    exact ⟨by simp; omega, by simp; omega, by simp; omega, by simp; omega,
      by simp; linarith, by simp; linarith, by simp; linarith, by simp; linarith⟩
  · obtain rfl : hid = hid2 := by rw [hh] at hh2; exact Option.some.inj hh2
    have hne0 := nonneg_of_lookup hnn (by simp [relevant_int_keys]) hcnt
    have hei0 := nonneg_of_lookup hnn (by simp [relevant_int_keys]) hint
    have hsh0 := nonneg_of_lookup hnn (by simp [relevant_int_keys]) hsh
    have hact0 := nonneg_of_lookup hnn (k := "num_experts_per_tok")
      (by simp [relevant_int_keys]) ha
    have hactle := sane_experts_le hse ha hcnt
    have hma : moe_layer_val mp hid ne ei sh (some act) ≤
        moe_layer_val mp hid ne ei sh none :=
      @moe_layer_val_active_le mp hid ne ei sh act hp0 hhid0 hei0 hactle
    have hma0 : 0 ≤ moe_layer_val mp hid ne ei sh (some act) :=
      moe_layer_val_nonneg (some act) hp0 hhid0 hne0 hei0 hsh0 (by simpa using hact0)
    have hra0 : 0 ≤ ne * dense_mlp_params hid ei mp.num_mlp_projections :=
      mul_nonneg hne0 (dense_mlp_params_nonneg hp0 hhid0 hei0)
    have hram : ne * dense_mlp_params hid ei mp.num_mlp_projections ≤
        moe_layer_val mp hid ne ei sh none :=
      @routed_le_moe_layer_val mp hid ne ei sh hp0 hhid0 hne0 hei0 hsh0
    exact ⟨by simp; omega, by simp; omega, by simp; omega, by simp; omega,
      by simp; linarith, by simp; linarith, by simp; linarith, by simp; linarith⟩

theorem hybrid_loop_preserves {c : Config} {atype : AttentionType}
    {mp : MoEFieldMapping} {hid act : Int} (p : List Char) {acc acc' : HybridAcc}
    (hp0 : 0 ≤ mp.num_mlp_projections) (hnn : NonnegCfg c mp)
    (hh : c.ints "hidden_size" = some hid)
    (ha : c.ints "num_experts_per_tok" = some act)
    (hse : SaneExperts c mp)
    (h : hybrid_loop c atype mp hid act acc p = .ok acc')
    (hinv : HAccInv acc) : HAccInv acc' := by
  induction p generalizing acc with
  | nil =>
      obtain rfl : acc = acc' := by simpa [hybrid_loop] using h
      exact hinv
  | cons ch rest ih =>
      unfold hybrid_loop at h
      cases hs : hybrid_step c atype mp hid act acc ch with
      | error e => rw [hs] at h; simp [andThen] at h
      | ok acc1 =>
          rw [hs] at h
          simp only [andThen_ok] at h
          exact ih h (hybrid_step_preserves hp0 hnn hh ha hse hs hinv)

/-- The interval loop preserves the accumulator invariant. -/
theorem interval_accum_inv (itv norms g l mt ma rp : Int)
    (hn : 0 ≤ norms) (hg : 0 ≤ g) (hl0 : 0 ≤ l) (hma0 : 0 ≤ ma) (hmam : ma ≤ mt)
    (hrp0 : 0 ≤ rp) (hrm : rp ≤ mt) (n : Nat) :
    0 ≤ (interval_accum itv norms g l mt ma rp n).num_full_attn ∧
    0 ≤ (interval_accum itv norms g l mt ma rp n).num_linear_attn ∧
    0 ≤ (interval_accum itv norms g l mt ma rp n).active_layer_params ∧
    (interval_accum itv norms g l mt ma rp n).active_layer_params ≤
      (interval_accum itv norms g l mt ma rp n).total_layer_params ∧
    0 ≤ (interval_accum itv norms g l mt ma rp n).routed_expert_params ∧
    (interval_accum itv norms g l mt ma rp n).routed_expert_params ≤
      (interval_accum itv norms g l mt ma rp n).total_layer_params := by
  induction n with
  | zero => simp [interval_accum]
  | succ n ih =>
      obtain ⟨i1, i2, i3, i4, i5, i6⟩ := ih
      by_cases hu : usesFullAttention itv n = true <;>
        simp only [interval_accum, hu, if_true, if_false, Bool.false_eq_true] <;>
        refine ⟨by linarith, by linarith, by linarith, by linarith, by linarith,
          by linarith⟩

/-- **C1 (amended)**: the result invariants hold on every succeeding
configuration whose integer fields are nonnegative, whose per-token active
expert count does not exceed the routed expert count, whose dense-layer
count does not exceed the layer count, and whose registry entry uses 3 MLP
projections if the uniform path is taken (the uniform path computes the
routed-expert term with the default 3 projections, so `nemotron_h` — the
2-projection entry — violates `routed ≤ total` there; see the
counterexample). -/
theorem c1_invariants_amended (raw : RawConfig) (c : Config) (atype : AttentionType)
    (mp : MoEFieldMapping) (r : ParamCountResult)
    (hres : resolve_text_config raw = .ok c)
    (hreg : KNOWN_ARCHITECTURES c.model_type = some (atype, mp))
    (h : count_params_from_config raw = .ok r)
    (hnn : NonnegCfg c mp) (hse : SaneExperts c mp) (hsd : SaneDenseSplit c mp)
    (hproj : c.hybrid_override_pattern = none →
      ¬((c.ints "full_attention_interval").getD 0 > 1) →
      mp.num_mlp_projections = 3) :
    r.active_params ≤ r.total_params ∧
    r.routed_expert_params ≤ r.total_params ∧
    0 ≤ r.total_params ∧ 0 ≤ r.active_params ∧ 0 ≤ r.routed_expert_params ∧
    0 ≤ r.num_layers ∧ 0 ≤ r.num_moe_layers ∧ 0 ≤ r.num_dense_layers ∧
    0 ≤ r.num_mamba_layers ∧ 0 ≤ r.num_attention_layers := by
  have hcore : count_params_core c = .ok r := by
    unfold count_params_from_config at h
    rw [hres] at h
    simpa using h
  have hp0 : 0 ≤ mp.num_mlp_projections := by
    rcases registry_projections hreg with h3 | h2 <;> omega
  by_cases hp : c.hybrid_override_pattern.isSome
  · -- pattern-hybrid path
    have h' : count_hybrid_params c atype mp = .ok r := by
      rw [← count_params_core_eq_hybrid hreg hp]; exact hcore
    obtain ⟨hid, vocab, L, act, acc, hh, hv, hl, ha, hlen, hloop, hr⟩ :=
      count_hybrid_params_inv h'
    have hhid0 := nonneg_of_lookup hnn (k := "hidden_size")
      (by simp [relevant_int_keys]) hh
    have hvoc0 := nonneg_of_lookup hnn (k := "vocab_size")
      (by simp [relevant_int_keys]) hv
    obtain ⟨i1, i2, i3, i4, i5, i6, i7, i8⟩ :=
      hybrid_loop_preserves _ hp0 hnn hh ha hse hloop (by simp [HAccInv])
    have hL0 : 0 ≤ L := hlen ▸ Int.natCast_nonneg _
    have hlm := @lm_head_val_nonneg c vocab hid hvoc0 hhid0
    have hemb : (0 : Int) ≤ vocab * hid := mul_nonneg hvoc0 hhid0
    subst hr
    simp only [hybrid_result]
    exact ⟨by linarith, by linarith, by linarith, by linarith, i5, hL0, i3, i4, i1, i2⟩
  · have hp' : c.hybrid_override_pattern = none := by
      cases hx : c.hybrid_override_pattern
      · rfl
      · rw [hx] at hp; simp at hp
    by_cases hi : (c.ints "full_attention_interval").getD 0 > 1
    · -- interval-hybrid path
      have h' : count_interval_hybrid_params c atype mp = .ok r := by
        rw [← count_params_core_eq_interval hreg hp' hi]; exact hcore
      obtain ⟨hid, vocab, L, act, itv, gq, ln, ne, ei, sh,
        hh, hv, hl, ha, hitv, hgqa, hlin, hcnt, hint, hsh, hr⟩ :=
        count_interval_hybrid_params_inv h'
      have hhid0 := nonneg_of_lookup hnn (k := "hidden_size")
        (by simp [relevant_int_keys]) hh
      have hvoc0 := nonneg_of_lookup hnn (k := "vocab_size")
        (by simp [relevant_int_keys]) hv
      have hL0 := nonneg_of_lookup hnn (k := "num_hidden_layers")
        (by simp [relevant_int_keys]) hl
      have hact0 := nonneg_of_lookup hnn (k := "num_experts_per_tok")
        (by simp [relevant_int_keys]) ha
      have hne0 := nonneg_of_lookup hnn (by simp [relevant_int_keys]) hcnt
      have hei0 := nonneg_of_lookup hnn (by simp [relevant_int_keys]) hint
      have hsh0 := nonneg_of_lookup hnn (by simp [relevant_int_keys]) hsh
      have hgq0 : 0 ≤ gq :=
        @attention_params_ok_nonneg c mp AttentionType.GQA gq hnn hgqa
      have hln0 := qwen3_next_linear_attn_params_ok_nonneg hnn hlin
      have hactle := sane_experts_le hse ha hcnt
      have hma := @moe_layer_val_active_le mp hid ne ei sh act hp0 hhid0 hei0 hactle
      have hma0 : 0 ≤ moe_layer_val mp hid ne ei sh (some act) :=
        moe_layer_val_nonneg (some act) hp0 hhid0 hne0 hei0 hsh0 (by simpa using hact0)
      have hra0 : 0 ≤ ne * dense_mlp_params hid ei mp.num_mlp_projections :=
        mul_nonneg hne0 (dense_mlp_params_nonneg hp0 hhid0 hei0)
      have hram := @routed_le_moe_layer_val mp hid ne ei sh hp0 hhid0 hne0 hei0 hsh0
      obtain ⟨j1, j2, j3, j4, j5, j6⟩ := interval_accum_inv itv (2 * hid) gq ln
        (moe_layer_val mp hid ne ei sh none) (moe_layer_val mp hid ne ei sh (some act))
        (ne * dense_mlp_params hid ei mp.num_mlp_projections)
        (by linarith) hgq0 hln0 hma0 hma hra0 hram L.toNat
      have hlm := @lm_head_val_nonneg c vocab hid hvoc0 hhid0
      have hemb : (0 : Int) ≤ vocab * hid := mul_nonneg hvoc0 hhid0
      subst hr
      simp only [interval_result]
      exact ⟨by linarith, by linarith, by linarith, by linarith, j5, hL0, hL0,
        le_refl 0, j2, j1⟩
    · -- uniform path
      have hproj3 := hproj hp' hi
      have h' : count_uniform_params c atype mp = .ok r := by
        rw [← count_params_core_eq_uniform hreg hp' hi]; exact hcore
      obtain ⟨hid, vocab, L, im, act, dl, ap, ne, ei, sh,
        hh, hv, hl, hin, ha, hdl, hat, hcnt, hint, hsh, hr⟩ :=
        count_uniform_params_inv h'
      have hhid0 := nonneg_of_lookup hnn (k := "hidden_size")
        (by simp [relevant_int_keys]) hh
      have hvoc0 := nonneg_of_lookup hnn (k := "vocab_size")
        (by simp [relevant_int_keys]) hv
      have hL0 := nonneg_of_lookup hnn (k := "num_hidden_layers")
        (by simp [relevant_int_keys]) hl
      have him0 := nonneg_of_lookup hnn (k := "intermediate_size")
        (by simp [relevant_int_keys]) hin
      have hact0 := nonneg_of_lookup hnn (k := "num_experts_per_tok")
        (by simp [relevant_int_keys]) ha
      have hne0 := nonneg_of_lookup hnn (by simp [relevant_int_keys]) hcnt
      have hei0 := nonneg_of_lookup hnn (by simp [relevant_int_keys]) hint
      have hsh0 := nonneg_of_lookup hnn (by simp [relevant_int_keys]) hsh
      have hdl0 := dense_layers_req_nonneg hnn hdl
      have hdlL := dense_layers_req_le hsd hdl hl
      have hap0 := attention_params_ok_nonneg hnn hat
      have hds0 := dsa_val_nonneg hnn hhid0
      have hactle := sane_experts_le hse ha hcnt
      have hlm := @lm_head_val_nonneg c vocab hid hvoc0 hhid0
      have hemb : (0 : Int) ≤ vocab * hid := mul_nonneg hvoc0 hhid0
      have hM0 : (0 : Int) ≤ L - dl := by omega
      have hdmp3 : 0 ≤ dense_mlp_params hid ei 3 :=
        dense_mlp_params_nonneg (by norm_num) hhid0 hei0
      have hdmpim : 0 ≤ dense_mlp_params hid im 3 :=
        dense_mlp_params_nonneg (by norm_num) hhid0 him0
      have hmoeT0 : 0 ≤ moe_layer_val mp hid ne ei sh none :=
        moe_layer_val_nonneg none hp0 hhid0 hne0 hei0 hsh0 (by simpa using hne0)
      have hma := @moe_layer_val_active_le mp hid ne ei sh act hp0 hhid0 hei0 hactle
      have hma0 : 0 ≤ moe_layer_val mp hid ne ei sh (some act) :=
        moe_layer_val_nonneg (some act) hp0 hhid0 hne0 hei0 hsh0 (by simpa using hact0)
      have hram : ne * dense_mlp_params hid ei 3 ≤ moe_layer_val mp hid ne ei sh none := by
        have := @routed_le_moe_layer_val mp hid ne ei sh hp0 hhid0 hne0 hei0 hsh0
        rw [hproj3] at this
        exact this
      have hDB0 : 0 ≤ ap + dense_mlp_params hid im 3 + 2 * hid + dsa_val c hid := by
        linarith
      have hMB0 : 0 ≤ ap + moe_layer_val mp hid ne ei sh none + 2 * hid +
          dsa_val c hid := by linarith
      have hAMB0 : 0 ≤ ap + moe_layer_val mp hid ne ei sh (some act) + 2 * hid +
          dsa_val c hid := by linarith
      have hdlDB := mul_nonneg hdl0 hDB0
      have hMAMB := mul_nonneg hM0 hAMB0
      have hMMB := mul_nonneg hM0 hMB0
      have hActTot := mul_le_mul_of_nonneg_left
        (show ap + moe_layer_val mp hid ne ei sh (some act) + 2 * hid + dsa_val c hid ≤
          ap + moe_layer_val mp hid ne ei sh none + 2 * hid + dsa_val c hid by linarith)
        hM0
      have hRouted : (L - dl) * ne * dense_mlp_params hid ei 3 ≤
          (L - dl) * (ap + moe_layer_val mp hid ne ei sh none + 2 * hid +
            dsa_val c hid) := by
        rw [mul_assoc]
        exact mul_le_mul_of_nonneg_left (by linarith) hM0
      have hRouted0 : 0 ≤ (L - dl) * ne * dense_mlp_params hid ei 3 :=
        mul_nonneg (mul_nonneg hM0 hne0) hdmp3
      have hmtpe0 : 0 ≤ (if 0 < mtp_count_of c mp then
          mtp_count_of c mp * (2 * hid * hid + 4 * hid) else 0) := by
        split_ifs with hmc
        · have hsq : (0 : Int) ≤ hid * hid := mul_self_nonneg hid
          have : (0 : Int) ≤ 2 * hid * hid + 4 * hid := by nlinarith
          exact mul_nonneg (le_of_lt hmc) this
        · exact le_refl 0
      subst hr
      simp only [uniform_result]
      have hsplit : ∀ X : Int, (if 0 < mtp_count_of c mp then
          X + mtp_count_of c mp * (2 * hid * hid + 4 * hid) else X) =
          X + (if 0 < mtp_count_of c mp then
            mtp_count_of c mp * (2 * hid * hid + 4 * hid) else 0) := by
        intro X
        split_ifs <;> ring
      rw [hsplit, hsplit]
      refine ⟨by linarith, by linarith, by linarith, by linarith, hRouted0,
        hL0, hM0, hdl0, le_refl 0, le_refl 0⟩

/-- Witness for C1 (amended) at the DeepSeek-V3.2 test configuration. -/
theorem c1_invariants_amended_witness :
    (count_params_from_config ⟨deepseek_v32_cfg, none⟩ = .ok deepseek_v32_expected ∧
     NonnegCfg deepseek_v32_cfg deepseek_mapping ∧
     SaneExperts deepseek_v32_cfg deepseek_mapping ∧
     SaneDenseSplit deepseek_v32_cfg deepseek_mapping) ∧
    (deepseek_v32_expected.active_params ≤ deepseek_v32_expected.total_params ∧
     deepseek_v32_expected.routed_expert_params ≤ deepseek_v32_expected.total_params ∧
     0 ≤ deepseek_v32_expected.total_params ∧
     0 ≤ deepseek_v32_expected.active_params ∧
     0 ≤ deepseek_v32_expected.routed_expert_params ∧
     0 ≤ deepseek_v32_expected.num_layers ∧
     0 ≤ deepseek_v32_expected.num_moe_layers ∧
     0 ≤ deepseek_v32_expected.num_dense_layers ∧
     0 ≤ deepseek_v32_expected.num_mamba_layers ∧
     0 ≤ deepseek_v32_expected.num_attention_layers) :=
  ⟨⟨rfl, by unfold NonnegCfg; decide, by unfold SaneExperts; decide,
    by unfold SaneDenseSplit; decide⟩,
   c1_invariants_amended ⟨deepseek_v32_cfg, none⟩ deepseek_v32_cfg AttentionType.MLA
     deepseek_mapping deepseek_v32_expected rfl rfl rfl
     (by unfold NonnegCfg; decide) (by unfold SaneExperts; decide)
     (by unfold SaneDenseSplit; decide) (by decide)⟩

/-! ## Claim C5: a single missing required field -/

theorem c5_uniform_mla_ds {cfg : Config} (k : String) (val : String → Int)
    (oval : String → Option Int) (hints : cfg.ints = missing_one_ints k val oval)
    (hnz : val "num_attention_heads" ≠ 0)
    (hk : k ∈ uniform_required_keys AttentionType.MLA deepseek_mapping) :
    count_uniform_params cfg AttentionType.MLA deepseek_mapping = .error (reqMsg k) := by
  simp only [uniform_required_keys, attn_keys, deepseek_mapping, List.mem_append, List.mem_cons,
    List.not_mem_nil, or_false, or_assoc] at hk
  rcases hk with rfl|rfl|rfl|rfl|rfl|rfl|rfl|rfl|rfl|rfl|rfl|rfl|rfl|rfl|rfl <;>
    simp [count_uniform_params, dense_layers_req, mtp_count_of, attention_params,
      mla_attention_params, moe_layer_params, require, hints, missing_one_ints,
      optional_int_keys, deepseek_mapping, dsa_indexer_params_eval, hnz]

theorem c5_uniform_gqa_ds {cfg : Config} (k : String) (val : String → Int)
    (oval : String → Option Int) (hints : cfg.ints = missing_one_ints k val oval)
    (hnz : val "num_attention_heads" ≠ 0)
    (hk : k ∈ uniform_required_keys AttentionType.GQA deepseek_mapping) :
    count_uniform_params cfg AttentionType.GQA deepseek_mapping = .error (reqMsg k) := by
  simp only [uniform_required_keys, attn_keys, deepseek_mapping, List.mem_append, List.mem_cons,
    List.not_mem_nil, or_false, or_assoc] at hk
  rcases hk with rfl|rfl|rfl|rfl|rfl|rfl|rfl|rfl|rfl|rfl|rfl <;>
    simp [count_uniform_params, dense_layers_req, mtp_count_of, attention_params,
      gqa_attention_params, pyFloorDiv, moe_layer_params, require, hints,
      missing_one_ints, optional_int_keys, deepseek_mapping, dsa_indexer_params_eval, hnz]

theorem c5_uniform_gqa_qwen3 {cfg : Config} (k : String) (val : String → Int)
    (oval : String → Option Int) (hints : cfg.ints = missing_one_ints k val oval)
    (hnz : val "num_attention_heads" ≠ 0)
    (hk : k ∈ uniform_required_keys AttentionType.GQA qwen3_mapping) :
    count_uniform_params cfg AttentionType.GQA qwen3_mapping = .error (reqMsg k) := by
  simp only [uniform_required_keys, attn_keys, qwen3_mapping, List.mem_append, List.mem_cons,
    List.not_mem_nil, or_false, or_assoc] at hk
  rcases hk with rfl|rfl|rfl|rfl|rfl|rfl|rfl|rfl|rfl|rfl <;>
    simp [count_uniform_params, dense_layers_req, mtp_count_of, attention_params,
      gqa_attention_params, pyFloorDiv, moe_layer_params, require, hints,
      missing_one_ints, optional_int_keys, qwen3_mapping, dsa_indexer_params_eval, hnz]

theorem c5_uniform_gqa_minimax {cfg : Config} (k : String) (val : String → Int)
    (oval : String → Option Int) (hints : cfg.ints = missing_one_ints k val oval)
    (hnz : val "num_attention_heads" ≠ 0)
    (hk : k ∈ uniform_required_keys AttentionType.GQA minimax_mapping) :
    count_uniform_params cfg AttentionType.GQA minimax_mapping = .error (reqMsg k) := by
  simp only [uniform_required_keys, attn_keys, minimax_mapping, List.mem_append, List.mem_cons,
    List.not_mem_nil, or_false, or_assoc] at hk
  rcases hk with rfl|rfl|rfl|rfl|rfl|rfl|rfl|rfl|rfl|rfl <;>
    simp [count_uniform_params, dense_layers_req, mtp_count_of, attention_params,
      gqa_attention_params, pyFloorDiv, moe_layer_params, require, hints,
      missing_one_ints, optional_int_keys, minimax_mapping, dsa_indexer_params_eval, hnz]

theorem c5_uniform_gqa_nemotron {cfg : Config} (k : String) (val : String → Int)
    (oval : String → Option Int) (hints : cfg.ints = missing_one_ints k val oval)
    (hnz : val "num_attention_heads" ≠ 0)
    (hk : k ∈ uniform_required_keys AttentionType.GQA nemotron_mapping) :
    count_uniform_params cfg AttentionType.GQA nemotron_mapping = .error (reqMsg k) := by
  simp only [uniform_required_keys, attn_keys, nemotron_mapping, List.mem_append, List.mem_cons,
    List.not_mem_nil, or_false, or_assoc] at hk
  rcases hk with rfl|rfl|rfl|rfl|rfl|rfl|rfl|rfl|rfl|rfl <;>
    simp [count_uniform_params, dense_layers_req, mtp_count_of, attention_params,
      gqa_attention_params, pyFloorDiv, moe_layer_params, require, hints,
      missing_one_ints, optional_int_keys, nemotron_mapping, dsa_indexer_params_eval, hnz]

theorem c5_interval_ds {cfg : Config} (k : String) (val : String → Int)
    (oval : String → Option Int) (atype : AttentionType)
    (hints : cfg.ints = missing_one_ints k val oval)
    (hnz : val "num_attention_heads" ≠ 0)
    (hk : k ∈ interval_required_keys deepseek_mapping) :
    count_interval_hybrid_params cfg atype deepseek_mapping = .error (reqMsg k) := by
  simp only [interval_required_keys, deepseek_mapping, List.mem_append, List.mem_cons,
    List.not_mem_nil, or_false, or_assoc] at hk
  rcases hk with rfl|rfl|rfl|rfl|rfl|rfl|rfl|rfl|rfl|rfl|rfl|rfl|rfl|rfl|rfl <;>
    simp [count_interval_hybrid_params, gqa_attention_params,
      qwen3_next_linear_attn_params, moe_layer_params, pyFloorDiv, require, hints,
      missing_one_ints, optional_int_keys, deepseek_mapping, hnz]

theorem c5_interval_qwen3 {cfg : Config} (k : String) (val : String → Int)
    (oval : String → Option Int) (atype : AttentionType)
    (hints : cfg.ints = missing_one_ints k val oval)
    (hnz : val "num_attention_heads" ≠ 0)
    (hk : k ∈ interval_required_keys qwen3_mapping) :
    count_interval_hybrid_params cfg atype qwen3_mapping = .error (reqMsg k) := by
  simp only [interval_required_keys, qwen3_mapping, List.mem_append, List.mem_cons,
    List.not_mem_nil, or_false, or_assoc] at hk
  rcases hk with rfl|rfl|rfl|rfl|rfl|rfl|rfl|rfl|rfl|rfl|rfl|rfl|rfl|rfl|rfl <;>
    simp [count_interval_hybrid_params, gqa_attention_params,
      qwen3_next_linear_attn_params, moe_layer_params, pyFloorDiv, require, hints,
      missing_one_ints, optional_int_keys, qwen3_mapping, hnz]

theorem c5_interval_minimax {cfg : Config} (k : String) (val : String → Int)
    (oval : String → Option Int) (atype : AttentionType)
    (hints : cfg.ints = missing_one_ints k val oval)
    (hnz : val "num_attention_heads" ≠ 0)
    (hk : k ∈ interval_required_keys minimax_mapping) :
    count_interval_hybrid_params cfg atype minimax_mapping = .error (reqMsg k) := by
  simp only [interval_required_keys, minimax_mapping, List.mem_append, List.mem_cons,
    List.not_mem_nil, or_false, or_assoc] at hk
  rcases hk with rfl|rfl|rfl|rfl|rfl|rfl|rfl|rfl|rfl|rfl|rfl|rfl|rfl|rfl|rfl <;>
    simp [count_interval_hybrid_params, gqa_attention_params,
      qwen3_next_linear_attn_params, moe_layer_params, pyFloorDiv, require, hints,
      missing_one_ints, optional_int_keys, minimax_mapping, hnz]

theorem c5_interval_nemotron {cfg : Config} (k : String) (val : String → Int)
    (oval : String → Option Int) (atype : AttentionType)
    (hints : cfg.ints = missing_one_ints k val oval)
    (hnz : val "num_attention_heads" ≠ 0)
    (hk : k ∈ interval_required_keys nemotron_mapping) :
    count_interval_hybrid_params cfg atype nemotron_mapping = .error (reqMsg k) := by
  simp only [interval_required_keys, nemotron_mapping, List.mem_append, List.mem_cons,
    List.not_mem_nil, or_false, or_assoc] at hk
  rcases hk with rfl|rfl|rfl|rfl|rfl|rfl|rfl|rfl|rfl|rfl|rfl|rfl|rfl|rfl|rfl <;>
    simp [count_interval_hybrid_params, gqa_attention_params,
      qwen3_next_linear_attn_params, moe_layer_params, pyFloorDiv, require, hints,
      missing_one_ints, optional_int_keys, nemotron_mapping, hnz]

theorem c5_hstep_err_M {cfg : Config} (atype : AttentionType) (mp : MoEFieldMapping)
    (k : String) (val : String → Int) (oval : String → Option Int)
    (hid nae : Int) (acc : HybridAcc)
    (hints : cfg.ints = missing_one_ints k val oval)
    (hk : k ∈ ["mamba_num_heads", "mamba_head_dim", "ssm_state_size", "conv_kernel"]) :
    hybrid_step cfg atype mp hid nae acc 'M' = .error (reqMsg k) := by
  simp only [List.mem_cons, List.not_mem_nil, or_false, or_assoc] at hk
  rcases hk with rfl|rfl|rfl|rfl <;>
    simp [hybrid_step, mamba2_layer_params, require, hints, missing_one_ints,
      optional_int_keys]

theorem c5_hstep_err_attn {cfg : Config} (atype : AttentionType) (mp : MoEFieldMapping)
    (k : String) (val : String → Int) (oval : String → Option Int)
    (hid nae : Int) (acc : HybridAcc)
    (hints : cfg.ints = missing_one_ints k val oval)
    (hnz : val "num_attention_heads" ≠ 0)
    (hk : k ∈ attn_keys atype) :
    hybrid_step cfg atype mp hid nae acc '*' = .error (reqMsg k) := by
  cases atype with
  | MLA =>
      simp only [attn_keys, List.mem_cons, List.not_mem_nil, or_false, or_assoc] at hk
      rcases hk with rfl|rfl|rfl|rfl|rfl|rfl <;>
        simp [hybrid_step, attention_params, mla_attention_params, require, hints,
          missing_one_ints, optional_int_keys]
  | GQA =>
      simp only [attn_keys, List.mem_cons, List.not_mem_nil, or_false, or_assoc] at hk
      rcases hk with rfl|rfl <;>
        simp [hybrid_step, attention_params, gqa_attention_params, pyFloorDiv, require,
          hints, missing_one_ints, optional_int_keys, hnz]

theorem c5_hstep_err_dense {cfg : Config} (atype : AttentionType) (mp : MoEFieldMapping)
    (val : String → Int) (oval : String → Option Int)
    (hid nae : Int) (acc : HybridAcc)
    (hints : cfg.ints = missing_one_ints "intermediate_size" val oval) :
    hybrid_step cfg atype mp hid nae acc '-' = .error (reqMsg "intermediate_size") := by
  simp [hybrid_step, require, hints, missing_one_ints, optional_int_keys]

theorem c5_hstep_err_moe {cfg : Config} (atype : AttentionType) (mp : MoEFieldMapping)
    (k : String) (val : String → Int) (oval : String → Option Int)
    (hid nae : Int) (acc : HybridAcc) (ch : Char)
    (hints : cfg.ints = missing_one_ints k val oval)
    (hm : mp = deepseek_mapping ∨ mp = qwen3_mapping ∨ mp = minimax_mapping ∨
      mp = nemotron_mapping)
    (h1 : ¬ch = 'M') (h2 : ¬ch = '*') (h3 : ¬ch = '-')
    (hk : k ∈ [mp.expert_count_key, mp.expert_intermediate_key, mp.shared_expert_key]) :
    hybrid_step cfg atype mp hid nae acc ch = .error (reqMsg k) := by
  rcases hm with rfl|rfl|rfl|rfl <;>
    (simp only [deepseek_mapping, qwen3_mapping, minimax_mapping, nemotron_mapping,
       List.mem_cons, List.not_mem_nil, or_false, or_assoc] at hk
     rcases hk with rfl|rfl|rfl <;>
       simp [hybrid_step, h1, h2, h3, moe_layer_params, require, hints,
         missing_one_ints, optional_int_keys, deepseek_mapping, qwen3_mapping,
         minimax_mapping, nemotron_mapping])

theorem c5_hstep_ok {cfg : Config} (atype : AttentionType) (mp : MoEFieldMapping)
    (k : String) (val : String → Int) (oval : String → Option Int)
    (hid nae : Int) (acc : HybridAcc) (ch : Char)
    (hints : cfg.ints = missing_one_ints k val oval)
    (hnz : val "num_attention_heads" ≠ 0)
    (hm : mp = deepseek_mapping ∨ mp = qwen3_mapping ∨ mp = minimax_mapping ∨
      mp = nemotron_mapping)
    (hb1 : k ≠ "hidden_size")
    (hkc : k ∉ hybrid_char_keys atype mp ch) :
    ∀ e, hybrid_step cfg atype mp hid nae acc ch ≠ .error e := by
  intro e
  rcases hm with rfl|rfl|rfl|rfl <;> cases atype <;>
    (unfold hybrid_char_keys attn_keys at hkc
     split_ifs at hkc <;>
       (simp only [List.mem_cons, List.not_mem_nil, or_false, not_or] at hkc
        simp_all [hybrid_step, mamba2_layer_params, attention_params,
          mla_attention_params, gqa_attention_params, pyFloorDiv, moe_layer_params,
          require, missing_one_ints, optional_int_keys, deepseek_mapping,
          qwen3_mapping, minimax_mapping, nemotron_mapping]))

theorem c5_char_not_base (atype : AttentionType) (mp : MoEFieldMapping) (ch : Char)
    (x : String)
    (hm : mp = deepseek_mapping ∨ mp = qwen3_mapping ∨ mp = minimax_mapping ∨
      mp = nemotron_mapping)
    (hx : x ∈ hybrid_char_keys atype mp ch) :
    x ∉ ["hidden_size", "vocab_size", "num_hidden_layers", "num_experts_per_tok"] := by
  rcases hm with rfl|rfl|rfl|rfl <;> cases atype <;>
    (unfold hybrid_char_keys attn_keys at hx
     split_ifs at hx <;> (fin_cases hx <;> decide))

theorem c5_hloop {cfg : Config} (atype : AttentionType) (mp : MoEFieldMapping)
    (k : String) (val : String → Int) (oval : String → Option Int) (hid nae : Int)
    (hints : cfg.ints = missing_one_ints k val oval)
    (hnz : val "num_attention_heads" ≠ 0)
    (hm : mp = deepseek_mapping ∨ mp = qwen3_mapping ∨ mp = minimax_mapping ∨
      mp = nemotron_mapping)
    (hb1 : k ≠ "hidden_size") :
    ∀ (p : List Char) (acc : HybridAcc), k ∈ p.flatMap (hybrid_char_keys atype mp) →
      hybrid_loop cfg atype mp hid nae acc p = .error (reqMsg k) := by
  intro p
  induction p with
  | nil => intro acc hk; simp at hk
  | cons ch rest ih =>
      intro acc hk
      by_cases hc : k ∈ hybrid_char_keys atype mp ch
      · have hs : hybrid_step cfg atype mp hid nae acc ch = .error (reqMsg k) := by
          unfold hybrid_char_keys at hc
          split_ifs at hc with h1 h2 h3
          · subst h1; exact c5_hstep_err_M atype mp k val oval hid nae acc hints hc
          · subst h2; exact c5_hstep_err_attn atype mp k val oval hid nae acc hints hnz hc
          · subst h3
            have hkk : k = "intermediate_size" := by simpa using hc
            subst hkk
            exact c5_hstep_err_dense atype mp val oval hid nae acc hints
          · exact c5_hstep_err_moe atype mp k val oval hid nae acc ch hints hm h1 h2 h3 hc
        simp [hybrid_loop, hs]
      · have hk' : k ∈ rest.flatMap (hybrid_char_keys atype mp) := by
          simp only [List.flatMap_cons, List.mem_append] at hk
          tauto
        cases hs : hybrid_step cfg atype mp hid nae acc ch with
        | error e =>
            exact absurd hs
              (c5_hstep_ok atype mp k val oval hid nae acc ch hints hnz hm hb1 hc e)
        | ok acc' =>
            simp only [hybrid_loop, hs, andThen_ok]
            exact ih acc' hk'

theorem c5_hybrid {cfg : Config} (atype : AttentionType) (mp : MoEFieldMapping)
    (k : String) (val : String → Int) (oval : String → Option Int) (p : List Char)
    (hints : cfg.ints = missing_one_ints k val oval)
    (hpat : cfg.hybrid_override_pattern = some p)
    (hnz : val "num_attention_heads" ≠ 0)
    (hm : mp = deepseek_mapping ∨ mp = qwen3_mapping ∨ mp = minimax_mapping ∨
      mp = nemotron_mapping)
    (hlen : (p.length : Int) = val "num_hidden_layers")
    (hk : k ∈ hybrid_required_keys atype mp p) :
    count_hybrid_params cfg atype mp = .error (reqMsg k) := by
  rcases List.mem_append.mp hk with hb | hu
  · simp only [List.mem_cons, List.not_mem_nil, or_false, or_assoc] at hb
    rcases hb with rfl|rfl|rfl|rfl <;>
      simp [count_hybrid_params, require, hints, missing_one_ints, optional_int_keys]
  · obtain ⟨ch0, hch0, hkch0⟩ := List.mem_flatMap.mp hu
    have hkb := c5_char_not_base atype mp ch0 k hm hkch0
    simp only [List.mem_cons, List.not_mem_nil, or_false, not_or] at hkb
    obtain ⟨hb1, hb2, hb3, hb4⟩ := hkb
    have h1 : cfg.ints "hidden_size" = some (val "hidden_size") := by
      rw [hints]; simp [missing_one_ints, optional_int_keys, hb1]
    have h2 : cfg.ints "vocab_size" = some (val "vocab_size") := by
      rw [hints]; simp [missing_one_ints, optional_int_keys, hb2]
    have h3 : cfg.ints "num_hidden_layers" = some (val "num_hidden_layers") := by
      rw [hints]; simp [missing_one_ints, optional_int_keys, hb3]
    have h4 : cfg.ints "num_experts_per_tok" = some (val "num_experts_per_tok") := by
      rw [hints]; simp [missing_one_ints, optional_int_keys, hb4]
    have hloop := c5_hloop atype mp k val oval (val "hidden_size")
      (val "num_experts_per_tok") hints hnz hm hb1 p {} hu
    simp only [count_hybrid_params, require_eq_some h1, require_eq_some h2,
      require_eq_some h3, require_eq_some h4, andThen_ok, hpat, Option.getD_some]
    rw [if_neg (not_not_intro hlen), hloop, andThen_error]

theorem c5_registry_cases {mt : String} {atype : AttentionType} {mp : MoEFieldMapping}
    (hreg : KNOWN_ARCHITECTURES mt = some (atype, mp)) :
    (atype = AttentionType.MLA ∧ mp = deepseek_mapping) ∨
    (atype = AttentionType.GQA ∧ mp = deepseek_mapping) ∨
    (atype = AttentionType.GQA ∧ mp = qwen3_mapping) ∨
    (atype = AttentionType.GQA ∧ mp = minimax_mapping) ∨
    (atype = AttentionType.GQA ∧ mp = nemotron_mapping) := by
  unfold KNOWN_ARCHITECTURES at hreg
  split_ifs at hreg <;> simp_all

/-- **C5**: for every registered architecture and topology, a configuration in
which a single required field is absent (all other required fields present)
makes the parameter counter fail with an error naming exactly that field — no
partial or defaulted result is returned. -/
theorem c5_missing_required_field (mt k : String) (atype : AttentionType)
    (mp : MoEFieldMapping) (val : String → Int) (oval : String → Option Int)
    (tie : Bool) (pat : Option (List Char))
    (hreg : KNOWN_ARCHITECTURES mt = some (atype, mp))
    (hnz : val "num_attention_heads" ≠ 0)
    (hlen : ∀ p, pat = some p → (p.length : Int) = val "num_hidden_layers")
    (hk : k ∈ required_keys (missing_one_cfg mt k val oval tie pat) atype mp) :
    count_params_core (missing_one_cfg mt k val oval tie pat) = .error (reqMsg k) := by
  have hm : mp = deepseek_mapping ∨ mp = qwen3_mapping ∨ mp = minimax_mapping ∨
      mp = nemotron_mapping := by
    rcases c5_registry_cases hreg with ⟨-, h⟩|⟨-, h⟩|⟨-, h⟩|⟨-, h⟩|⟨-, h⟩ <;> tauto
  have hints : (missing_one_cfg mt k val oval tie pat).ints =
      missing_one_ints k val oval := rfl
  have hreg' : KNOWN_ARCHITECTURES (missing_one_cfg mt k val oval tie pat).model_type =
      some (atype, mp) := hreg
  cases pat with
  | some p =>
      have hk' : k ∈ hybrid_required_keys atype mp p := by
        simpa [required_keys, missing_one_cfg] using hk
      have heq : count_params_core (missing_one_cfg mt k val oval tie (some p)) =
          count_hybrid_params (missing_one_cfg mt k val oval tie (some p)) atype mp := by
        simp [count_params_core, hreg, missing_one_cfg]
      rw [heq]
      exact c5_hybrid atype mp k val oval p hints rfl hnz hm (hlen p rfl) hk'
  | none =>
      by_cases hiv :
          1 < (missing_one_ints k val oval "full_attention_interval").getD 0
      · have hk' : k ∈ interval_required_keys mp := by
          simpa [required_keys, missing_one_cfg, hiv] using hk
        have heq : count_params_core (missing_one_cfg mt k val oval tie none) =
            count_interval_hybrid_params (missing_one_cfg mt k val oval tie none)
              atype mp := by
          simp [count_params_core, hreg, missing_one_cfg, hiv]
        rw [heq]
        rcases hm with rfl|rfl|rfl|rfl
        · exact c5_interval_ds k val oval atype hints hnz hk'
        · exact c5_interval_qwen3 k val oval atype hints hnz hk'
        · exact c5_interval_minimax k val oval atype hints hnz hk'
        · exact c5_interval_nemotron k val oval atype hints hnz hk'
      · have hk' : k ∈ uniform_required_keys atype mp := by
          simpa [required_keys, missing_one_cfg, hiv] using hk
        have heq : count_params_core (missing_one_cfg mt k val oval tie none) =
            count_uniform_params (missing_one_cfg mt k val oval tie none) atype mp := by
          simp [count_params_core, hreg, missing_one_cfg, hiv]
        rw [heq]
        rcases c5_registry_cases hreg with ⟨rfl, rfl⟩|⟨rfl, rfl⟩|⟨rfl, rfl⟩|
          ⟨rfl, rfl⟩|⟨rfl, rfl⟩
        · exact c5_uniform_mla_ds k val oval hints hnz hk'
        · exact c5_uniform_gqa_ds k val oval hints hnz hk'
        · exact c5_uniform_gqa_qwen3 k val oval hints hnz hk'
        · exact c5_uniform_gqa_minimax k val oval hints hnz hk'
        · exact c5_uniform_gqa_nemotron k val oval hints hnz hk'

theorem c5_missing_required_field_witness :
    count_params_core (missing_one_cfg "qwen3_moe" "moe_intermediate_size"
        (fun _ => 1) (fun _ => none) false none) =
      .error (reqMsg "moe_intermediate_size") :=
  c5_missing_required_field "qwen3_moe" "moe_intermediate_size" AttentionType.GQA
    qwen3_mapping (fun _ => 1) (fun _ => none) false none
    (by simp [KNOWN_ARCHITECTURES]) (by decide) (fun p h => nomatch h) (by decide)
